import Mathlib

/-!
# Verification of the content-plan pipeline

Shallow embedding of the content-plan → Jira pipeline
(`src/service/prefect/flows/content_plan_spreadsheet_to_jira_issue.py`,
`src/service/prefect/tasks/utility_tasks.py`,
`src/service/prefect/tasks/jira_tasks.py`) together with proofs about it.

Strings are modelled as Lean `String`/`List Char`; Python `str.strip` and
substring containment are modelled on the ASCII working set used by the
pipeline's data.  External calls (Google Sheets / Drive, the Jira server,
the filesystem) are passed in as explicit oracle arguments: a raising call
is an `Except.error`, a returning call is `Except.ok`, matching the
`try`/`except` structure of the Python code.
-/

namespace Noktah

instance {ε α : Type} [DecidableEq ε] [DecidableEq α] :
    DecidableEq (Except ε α) := fun x y =>
  match x, y with
  | Except.ok a, Except.ok b =>
    if h : a = b then isTrue (by rw [h])
    else isFalse (fun he => h (by injection he))
  | Except.error a, Except.error b =>
    if h : a = b then isTrue (by rw [h])
    else isFalse (fun he => h (by injection he))
  | Except.ok _, Except.error _ => isFalse (fun he => Except.noConfusion he)
  | Except.error _, Except.ok _ => isFalse (fun he => Except.noConfusion he)

/-- ASCII part of the whitespace set stripped by Python `str.strip()`. -/
def isPySpace (c : Char) : Bool :=
  c = ' ' || c = '\t' || c = '\n' || c = '\r' || c = '\x0b' || c = '\x0c'

/-- `str.strip()` on a character list: drop whitespace from both ends. -/
def pyStripL (cs : List Char) : List Char :=
  ((cs.dropWhile isPySpace).reverse.dropWhile isPySpace).reverse

/-- Python `str.strip()` (ASCII whitespace). -/
def pyStrip (s : String) : String := String.mk (pyStripL s.data)

/-- Python `needle in hay` substring containment, on character lists. -/
def pyInL (needle : List Char) : List Char → Bool
  | [] => needle.isEmpty
  | c :: rest => needle.isPrefixOf (c :: rest) || pyInL needle rest

/-- Python `needle in hay` substring containment on strings. -/
def pyIn (needle hay : String) : Bool := pyInL needle.data hay.data

/-! ## Document matching (search_content_plan_files_flow, lines 196-219) -/

/-- A Drive file as returned by `google_filter_files_in_folder`. -/
structure DriveFile where
  id : String
  name : String
deriving DecidableEq, Repr

/-- The per-candidate test of the matching loop: the loop body breaks on
`file_name == expected_filename` and also breaks on
`expected_filename in file_name`, where `file_name` is the stripped name. -/
def acceptsMatch (expected : String) (f : DriveFile) : Bool :=
  (pyStrip f.name == expected) || pyIn expected (pyStrip f.name)

/-- The matching loop of `search_content_plan_files_flow` (lines 208-219):
scan candidates in order and keep the first one accepted by either test. -/
def findContentPlanMatch (expected : String) (files : List DriveFile) :
    Option DriveFile :=
  files.find? (acceptsMatch expected)

/-- `expected_filename = f"Content Plan - {client_name} - {search_month}"`. -/
def expectedFilename (clientName month : String) : String :=
  "Content Plan - " ++ clientName ++ " - " ++ month

/-- C1 counterexample: an exact-name candidate exists at position 2, but the
loop selects the position-1 candidate that merely contains the expected
filename, so exact equality does not get absolute precedence. -/
theorem c1_counterexample :
    findContentPlanMatch "Content Plan - Acme - May 2024"
        [⟨"id1", "Content Plan - Acme - May 2024 (final)"⟩,
         ⟨"id2", "Content Plan - Acme - May 2024"⟩] =
      some ⟨"id1", "Content Plan - Acme - May 2024 (final)"⟩
    ∧ pyStrip "Content Plan - Acme - May 2024" = "Content Plan - Acme - May 2024"
    ∧ pyStrip "Content Plan - Acme - May 2024 (final)" ≠
        "Content Plan - Acme - May 2024" := by
  refine ⟨?_, ?_, ?_⟩ <;> decide

/-- C1 (amended): the matcher returns the first candidate, in scan order,
whose stripped name equals the expected filename or contains it as a
substring; exact equality has no extra precedence over an earlier
substring-containing candidate; when no candidate passes either test the
result is `none`. -/
theorem c1_amended (expected : String) (files : List DriveFile) :
    (findContentPlanMatch expected files = none ↔
      ∀ f ∈ files, acceptsMatch expected f = false)
    ∧ (∀ f, findContentPlanMatch expected files = some f →
        f ∈ files ∧ acceptsMatch expected f = true)
    ∧ (∀ pre f post, files = pre ++ f :: post → acceptsMatch expected f = true →
        (∀ g ∈ pre, acceptsMatch expected g = false) →
        findContentPlanMatch expected files = some f) := by
  refine ⟨?_, ?_, ?_⟩
  · constructor
    · intro h f hf
      have := List.find?_eq_none.mp h f hf
      simpa using this
    · intro h
      apply List.find?_eq_none.mpr
      intro f hf
      simp [h f hf]
  · intro f h
    exact ⟨List.mem_of_find?_eq_some h, List.find?_some h⟩
  · intro pre f post hsplit hacc hpre
    subst hsplit
    induction pre with
    | nil => simp [findContentPlanMatch, List.find?, hacc]
    | cons g rest ih =>
      have hg : acceptsMatch expected g = false := hpre g (by simp)
      have hrest : ∀ x ∈ rest, acceptsMatch expected x = false := by
        intro x hx
        exact hpre x (by simp [hx])
      have := ih hrest
      simpa [findContentPlanMatch, List.find?, hg] using this

/-- Witness for `c1_amended`: at a concrete candidate list, the first
accepted candidate is returned. -/
theorem c1_amended_witness :
    findContentPlanMatch "Content Plan - B - May 2024"
        [⟨"i1", "Content Plan - A - May 2024"⟩,
         ⟨"i2", "Content Plan - B - May 2024"⟩] =
      some ⟨"i2", "Content Plan - B - May 2024"⟩ :=
  (c1_amended "Content Plan - B - May 2024"
      [⟨"i1", "Content Plan - A - May 2024"⟩,
       ⟨"i2", "Content Plan - B - May 2024"⟩]).2.2
    [⟨"i1", "Content Plan - A - May 2024"⟩]
    ⟨"i2", "Content Plan - B - May 2024"⟩ [] rfl (by decide) (by decide)

/-! ## Roster rows and the locator loop
(`search_content_plan_files_flow`, lines 186-259) -/

/-- A spreadsheet row, as materialized by `google_read_sheet_data`:
a mapping from column header to (string) cell value. -/
def Row : Type := List (String × String)

instance : DecidableEq Row := by unfold Row; infer_instance

instance : Repr Row := by unfold Row; infer_instance

/-- Python `row.get(key, "")` on a row mapping. -/
def rowGet (row : Row) (key : String) : String :=
  match row.find? (fun p => p.1 == key) with
  | some p => p.2
  | none => ""

/-- A client row is skipped when `client.get("Name", "")` or
`client.get("Content Plan Folder ID", "")` is falsy (lines 188-194). -/
def skippedClient (row : Row) : Bool :=
  rowGet row "Name" == "" || rowGet row "Content Plan Folder ID" == ""

/-- One entry of the locator's `output_list` (lines 222-233, 247-252). -/
structure OutputItem where
  number : Nat
  client_name : String
  content_plan_id : Option String
  error : Option String
deriving DecidableEq, Repr

/-- Result of one `google_filter_files_in_folder` call: the file list, or
an exception message. -/
def FileSearchResult : Type := Except String (List DriveFile)

/-- The locator loop (lines 188-259).  `i` is the 1-based value delivered
by `enumerate(clients, 1)`; `oracle i` is the outcome of the
`google_filter_files_in_folder` call made in iteration `i`.  Returns the
`output_list` together with the list of folder ids actually searched (one
entry per issued search, in order). -/
def searchGo (oracle : Nat → FileSearchResult) (month : String) :
    Nat → List Row → List OutputItem × List String
  | _, [] => ([], [])
  | i, client :: rest =>
    let tail := searchGo oracle month (i + 1) rest
    if skippedClient client then
      -- `continue`: the skip is only logged (`logger.warning`), nothing is
      -- appended to `output_list`.
      tail
    else
      let clientName := rowGet client "Name"
      let folderId := rowGet client "Content Plan Folder ID"
      let expected := expectedFilename clientName month
      match oracle i with
      | Except.ok files =>
        let item : OutputItem :=
          match findContentPlanMatch expected files with
          | some f => ⟨i, clientName, some f.id, none⟩
          | none => ⟨i, clientName, none, none⟩
        (item :: tail.1, folderId :: tail.2)
      | Except.error e =>
        (⟨i, clientName, none, some e⟩ :: tail.1, folderId :: tail.2)

/-- The locator's `output_list` for a roster. -/
def searchOutput (oracle : Nat → FileSearchResult) (month : String)
    (clients : List Row) : List OutputItem :=
  (searchGo oracle month 1 clients).1

/-- The folder ids the locator actually searched, in order. -/
def searchedFolders (oracle : Nat → FileSearchResult) (month : String)
    (clients : List Row) : List String :=
  (searchGo oracle month 1 clients).2

/-! ## Locator loop lemmas -/

lemma searchGo_snd (oracle : Nat → FileSearchResult) (month : String)
    (i : Nat) (clients : List Row) :
    (searchGo oracle month i clients).2 =
      (clients.filter (fun c => !skippedClient c)).map
        (fun c => rowGet c "Content Plan Folder ID") := by
  induction clients generalizing i with
  | nil => rfl
  | cons c rest ih =>
    by_cases h : skippedClient c
    · simp [searchGo, h, ih]
    · cases horacle : oracle i with
      | ok files => simp [searchGo, h, horacle, ih]
      | error e => simp [searchGo, h, horacle, ih]

lemma searchGo_fst_length (oracle : Nat → FileSearchResult) (month : String)
    (i : Nat) (clients : List Row) :
    (searchGo oracle month i clients).1.length =
      (clients.filter (fun c => !skippedClient c)).length := by
  induction clients generalizing i with
  | nil => rfl
  | cons c rest ih =>
    by_cases h : skippedClient c
    · simp [searchGo, h, ih]
    · cases horacle : oracle i with
      | ok files => simp [searchGo, h, horacle, ih]
      | error e => simp [searchGo, h, horacle, ih]

lemma searchGo_mem (oracle : Nat → FileSearchResult) (month : String)
    (i : Nat) (clients : List Row) :
    ∀ it ∈ (searchGo oracle month i clients).1,
      ∃ j c, clients.get? j = some c ∧ it.number = i + j ∧
        skippedClient c = false ∧ it.client_name = rowGet c "Name" := by
  induction clients generalizing i with
  | nil => intro it h; simp [searchGo] at h
  | cons c rest ih =>
    intro it hmem
    simp only [searchGo] at hmem
    by_cases h : skippedClient c
    · rw [if_pos h] at hmem
      obtain ⟨j, c', hget, hnum, hskip, hname⟩ := ih (i + 1) it hmem
      exact ⟨j + 1, c', by simpa using hget, by omega, hskip, hname⟩
    · rw [if_neg h] at hmem
      cases horacle : oracle i with
      | ok files =>
        cases hfind : findContentPlanMatch
            (expectedFilename (rowGet c "Name") month) files with
        | some f =>
          simp only [horacle, hfind, List.mem_cons] at hmem
          rcases hmem with hit | hit
          · exact ⟨0, c, by simp, by simp [hit], by simpa using h, by simp [hit]⟩
          · obtain ⟨j, c', hget, hnum, hskip, hname⟩ := ih (i + 1) it hit
            exact ⟨j + 1, c', by simpa using hget, by omega, hskip, hname⟩
        | none =>
          simp only [horacle, hfind, List.mem_cons] at hmem
          rcases hmem with hit | hit
          · exact ⟨0, c, by simp, by simp [hit], by simpa using h, by simp [hit]⟩
          · obtain ⟨j, c', hget, hnum, hskip, hname⟩ := ih (i + 1) it hit
            exact ⟨j + 1, c', by simpa using hget, by omega, hskip, hname⟩
      | error e =>
        simp only [horacle, List.mem_cons] at hmem
        rcases hmem with hit | hit
        · exact ⟨0, c, by simp, by simp [hit], by simpa using h, by simp [hit]⟩
        · obtain ⟨j, c', hget, hnum, hskip, hname⟩ := ih (i + 1) it hit
          exact ⟨j + 1, c', by simpa using hget, by omega, hskip, hname⟩

lemma searchGo_number_ge (oracle : Nat → FileSearchResult) (month : String)
    (i : Nat) (clients : List Row) :
    ∀ it ∈ (searchGo oracle month i clients).1, i ≤ it.number := by
  intro it hmem
  obtain ⟨j, c, _, hnum, _, _⟩ := searchGo_mem oracle month i clients it hmem
  omega

lemma searchGo_pairwise (oracle : Nat → FileSearchResult) (month : String)
    (i : Nat) (clients : List Row) :
    ((searchGo oracle month i clients).1.map
      (fun it => it.number)).Pairwise (· < ·) := by
  induction clients generalizing i with
  | nil => simp [searchGo]
  | cons c rest ih =>
    by_cases h : skippedClient c
    · simpa [searchGo, h] using ih (i + 1)
    · have htail : ∀ it ∈ (searchGo oracle month (i + 1) rest).1,
          i < it.number := fun it hit => searchGo_number_ge _ _ _ _ it hit
      have hstep : ∀ n ∈ ((searchGo oracle month (i + 1) rest).1.map
          (fun it => it.number)), i < n := by
        intro n hn
        obtain ⟨it, hit, rfl⟩ := List.mem_map.mp hn
        exact htail it hit
      simp only [searchGo]
      rw [if_neg h]
      cases horacle : oracle i with
      | ok files =>
        cases hfind : findContentPlanMatch
            (expectedFilename (rowGet c "Name") month) files with
        | some f =>
          simp only [horacle, hfind, List.map_cons, List.pairwise_cons]
          exact ⟨hstep, ih (i + 1)⟩
        | none =>
          simp only [horacle, hfind, List.map_cons, List.pairwise_cons]
          exact ⟨hstep, ih (i + 1)⟩
      | error e =>
        simp only [horacle, List.map_cons, List.pairwise_cons]
        exact ⟨hstep, ih (i + 1)⟩

/-! ## C2: exclusion of incomplete client records -/

/-- C2 counterexample: roster of 3 clients where client 2 has no folder
reference.  Exactly 2 searches are issued, but the locator's output has no
entry at all for client 2 — the skip is only logged (`logger.warning` +
`continue`), so the claimed "1 explicit skip record" does not exist. -/
theorem c2_counterexample :
    searchOutput (fun _ => Except.ok []) "September 2025"
        [[("Name", "Client A"), ("Content Plan Folder ID", "fA")],
         [("Name", "Client B")],
         [("Name", "Client C"), ("Content Plan Folder ID", "fC")]] =
      [⟨1, "Client A", none, none⟩, ⟨3, "Client C", none, none⟩]
    ∧ (searchedFolders (fun _ => Except.ok []) "September 2025"
        [[("Name", "Client A"), ("Content Plan Folder ID", "fA")],
         [("Name", "Client B")],
         [("Name", "Client C"), ("Content Plan Folder ID", "fC")]]).length = 2
    ∧ (searchOutput (fun _ => Except.ok []) "September 2025"
        [[("Name", "Client A"), ("Content Plan Folder ID", "fA")],
         [("Name", "Client B")],
         [("Name", "Client C"), ("Content Plan Folder ID", "fC")]]).filter
        (fun it => it.number == 2) = [] := by
  refine ⟨?_, ?_, ?_⟩ <;> decide

/-- C2 (amended): a client record missing its name or folder reference is
excluded before any search is issued — the searched folders are exactly
those of the complete records, the output has exactly one entry per
complete record, and every output entry points back to a complete roster
record; the skipped client leaves no record in the output (it is only
logged), and the locator is a total function (never raises). -/
theorem c2_amended (oracle : Nat → FileSearchResult) (month : String)
    (clients : List Row) :
    searchedFolders oracle month clients =
      (clients.filter (fun c => !skippedClient c)).map
        (fun c => rowGet c "Content Plan Folder ID")
    ∧ (searchOutput oracle month clients).length =
        (clients.filter (fun c => !skippedClient c)).length
    ∧ ∀ it ∈ searchOutput oracle month clients,
        ∃ c, clients.get? (it.number - 1) = some c ∧
          skippedClient c = false := by
  refine ⟨searchGo_snd oracle month 1 clients,
    searchGo_fst_length oracle month 1 clients, ?_⟩
  intro it hmem
  obtain ⟨j, c, hget, hnum, hskip, _⟩ :=
    searchGo_mem oracle month 1 clients it hmem
  exact ⟨c, by rw [hnum]; simpa using hget, hskip⟩

/-- Witness for `c2_amended` at the 3-client roster with client 2 missing
its folder reference. -/
theorem c2_amended_witness :
    searchedFolders (fun _ => Except.ok []) "May 2024"
        [[("Name", "A"), ("Content Plan Folder ID", "fA")],
         [("Name", "B")],
         [("Name", "C"), ("Content Plan Folder ID", "fC")]] = ["fA", "fC"]
    ∧ ∃ c, ([[("Name", "A"), ("Content Plan Folder ID", "fA")],
         [("Name", "B")],
         [("Name", "C"), ("Content Plan Folder ID", "fC")]] : List Row).get?
          ((3 : Nat) - 1) = some c ∧ skippedClient c = false := by
  have h := c2_amended (fun _ => Except.ok []) "May 2024"
    [[("Name", "A"), ("Content Plan Folder ID", "fA")],
     [("Name", "B")],
     [("Name", "C"), ("Content Plan Folder ID", "fC")]]
  refine ⟨by rw [h.1]; decide, ?_⟩
  have := h.2.2 ⟨3, "C", none, none⟩ (by decide)
  simpa using this

/-! ## Filter flow (`filter_content_plan_results_flow`, lines 332-352) -/

/-- Python `str.lower()` (ASCII working set). -/
def pyLower (s : String) : String := String.mk (s.data.map Char.toLower)

/-- The include decision for one output item (lines 333-349):
a truthy `client_numbers` includes items whose number is listed; a truthy
`client_names` includes items whose lowercased name contains a lowercased
filter as a substring; with no criteria at all, everything is included. -/
def includeItem (nums : List Nat) (names : List String)
    (it : OutputItem) : Bool :=
  (!nums.isEmpty && nums.contains it.number)
  || names.any (fun n => pyIn (pyLower n) (pyLower it.client_name))
  || (nums.isEmpty && names.isEmpty)

/-- The filter flow's `filtered_output` (lines 330-352). -/
def filterOutput (nums : List Nat) (names : List String)
    (out : List OutputItem) : List OutputItem :=
  out.filter (includeItem nums names)

/-- C10: output numbers are 1-based roster positions — every output item
points back to the non-skipped roster record at index `number - 1` (so
skipped clients still consume an index), the numbers are strictly
increasing (gaps allowed), the numeric filter selects exactly the items
whose number is listed (hence selects by roster position), and filtering
is an order-preserving sublist — the whole list when no criteria are
given. -/
theorem c10_locator_numbering (oracle : Nat → FileSearchResult)
    (month : String) (clients : List Row) :
    (∀ it ∈ searchOutput oracle month clients,
      ∃ c, clients.get? (it.number - 1) = some c ∧
        skippedClient c = false ∧ it.client_name = rowGet c "Name")
    ∧ ((searchOutput oracle month clients).map
        (fun it => it.number)).Pairwise (· < ·)
    ∧ (∀ nums names,
        List.Sublist (filterOutput nums names (searchOutput oracle month clients))
          (searchOutput oracle month clients))
    ∧ filterOutput [] [] (searchOutput oracle month clients) =
        searchOutput oracle month clients
    ∧ (∀ nums it, nums ≠ [] →
        (it ∈ filterOutput nums [] (searchOutput oracle month clients) ↔
          it ∈ searchOutput oracle month clients ∧ it.number ∈ nums)) := by
  refine ⟨?_, searchGo_pairwise oracle month 1 clients, ?_, ?_, ?_⟩
  · intro it hmem
    obtain ⟨j, c, hget, hnum, hskip, hname⟩ :=
      searchGo_mem oracle month 1 clients it hmem
    exact ⟨c, by rw [hnum]; simpa using hget, hskip, hname⟩
  · intro nums names
    exact List.filter_sublist _
  · apply List.filter_eq_self.mpr
    intro it _
    simp [includeItem]
  · intro nums it hne
    rw [filterOutput, List.mem_filter]
    have hemp : nums.isEmpty = false := by
      cases nums with
      | nil => exact absurd rfl hne
      | cons a l => rfl
    simp [includeItem, hemp]

/-- Witness for `c10_locator_numbering` at a concrete roster. -/
theorem c10_locator_numbering_witness :
    (∃ c, ([[("Name", "A"), ("Content Plan Folder ID", "fA")],
        [("Name", "B")],
        [("Name", "C"), ("Content Plan Folder ID", "fC")]] : List Row).get?
          ((3 : Nat) - 1) = some c ∧ skippedClient c = false ∧
          "C" = rowGet c "Name")
    ∧ (⟨3, "C", none, none⟩ ∈ filterOutput [3] []
        (searchOutput (fun _ => Except.ok []) "May 2024"
          [[("Name", "A"), ("Content Plan Folder ID", "fA")],
           [("Name", "B")],
           [("Name", "C"), ("Content Plan Folder ID", "fC")]]) ↔
        (⟨3, "C", none, none⟩ : OutputItem) ∈
          searchOutput (fun _ => Except.ok []) "May 2024"
            [[("Name", "A"), ("Content Plan Folder ID", "fA")],
             [("Name", "B")],
             [("Name", "C"), ("Content Plan Folder ID", "fC")]] ∧
          (3 : Nat) ∈ [3]) := by
  have h := c10_locator_numbering (fun _ => Except.ok []) "May 2024"
    [[("Name", "A"), ("Content Plan Folder ID", "fA")],
     [("Name", "B")],
     [("Name", "C"), ("Content Plan Folder ID", "fC")]]
  exact ⟨h.1 ⟨3, "C", none, none⟩ (by decide),
    h.2.2.2.2 [3] ⟨3, "C", none, none⟩ (by decide)⟩

/-! ## Dates (`format_date_for_jira`, utility_tasks.py lines 207-251)

`datetime.strptime` is modelled at the precision of CPython's `_strptime`
regexes for the eight formats used by the code: `%Y` is exactly four
digits, `%y` exactly two (00-68 ↦ 2000+, 69-99 ↦ 1900+), `%m`/`%d` one or
two digits; the separators are literal; the whole string must be consumed;
the resulting calendar date must be valid (`datetime` raises `ValueError`
otherwise, with MINYEAR 1 and MAXYEAR 9999).  `strftime("%Y-%m-%d")` is
modelled as zero-padded rendering. -/

structure Date where
  year : Nat
  month : Nat
  day : Nat
deriving DecidableEq, Repr

def isLeapYear (y : Nat) : Bool :=
  y % 4 == 0 && (y % 100 != 0 || y % 400 == 0)

def daysInMonth (y m : Nat) : Nat :=
  if m = 2 then (if isLeapYear y then 29 else 28)
  else if m = 4 ∨ m = 6 ∨ m = 9 ∨ m = 11 then 30
  else 31

/-- The constraints `datetime(year, month, day)` enforces. -/
def validDate (d : Date) : Bool :=
  decide (1 ≤ d.year ∧ d.year ≤ 9999 ∧ 1 ≤ d.month ∧ d.month ≤ 12 ∧
    1 ≤ d.day ∧ d.day ≤ daysInMonth d.year d.month)

def digitVal (c : Char) : Nat := c.toNat - 48

def digitsToNat (cs : List Char) : Nat :=
  cs.foldl (fun a c => a * 10 + digitVal c) 0

def allDigits (cs : List Char) : Bool := cs.all Char.isDigit

/-- `%Y`: exactly four digits. -/
def parseYear4 (t : List Char) : Option Nat :=
  if t.length == 4 && allDigits t then some (digitsToNat t) else none

/-- `%y`: exactly two digits, with CPython's century rule. -/
def parseYear2 (t : List Char) : Option Nat :=
  if t.length == 2 && allDigits t then
    let v := digitsToNat t
    some (if v ≤ 68 then 2000 + v else 1900 + v)
  else none

/-- `%m` / `%d`: one or two digits (range enforced by `validDate`). -/
def parseNum2 (t : List Char) : Option Nat :=
  if (t.length == 1 || t.length == 2) && allDigits t then
    some (digitsToNat t)
  else none

/-- The eight formats of `date_formats` (utility_tasks.py lines 226-235),
in source order. -/
inductive DateFormat
  | ymdDash   -- "%Y-%m-%d"
  | dmySlash  -- "%d/%m/%Y"
  | mdySlash  -- "%m/%d/%Y"
  | dmyDash   -- "%d-%m-%Y"
  | ymdSlash  -- "%Y/%m/%d"
  | dmy2Slash -- "%d/%m/%y"
  | mdy2Slash -- "%m/%d/%y"
  | dmy2Dash  -- "%d-%m-%y"
deriving DecidableEq, Repr

def DateFormat.sep : DateFormat → Char
  | ymdDash => '-'
  | dmyDash => '-'
  | dmy2Dash => '-'
  | _ => '/'

/-- Assemble a date from the three separator-delimited tokens according to
the format's field order. -/
def DateFormat.build : DateFormat → List Char → List Char → List Char → Option Date
  | ymdDash, t1, t2, t3 =>
    match parseYear4 t1, parseNum2 t2, parseNum2 t3 with
    | some y, some m, some d => some ⟨y, m, d⟩
    | _, _, _ => none
  | ymdSlash, t1, t2, t3 =>
    match parseYear4 t1, parseNum2 t2, parseNum2 t3 with
    | some y, some m, some d => some ⟨y, m, d⟩
    | _, _, _ => none
  | dmySlash, t1, t2, t3 =>
    match parseNum2 t1, parseNum2 t2, parseYear4 t3 with
    | some d, some m, some y => some ⟨y, m, d⟩
    | _, _, _ => none
  | mdySlash, t1, t2, t3 =>
    match parseNum2 t1, parseNum2 t2, parseYear4 t3 with
    | some m, some d, some y => some ⟨y, m, d⟩
    | _, _, _ => none
  | dmyDash, t1, t2, t3 =>
    match parseNum2 t1, parseNum2 t2, parseYear4 t3 with
    | some d, some m, some y => some ⟨y, m, d⟩
    | _, _, _ => none
  | dmy2Slash, t1, t2, t3 =>
    match parseNum2 t1, parseNum2 t2, parseYear2 t3 with
    | some d, some m, some y => some ⟨y, m, d⟩
    | _, _, _ => none
  | mdy2Slash, t1, t2, t3 =>
    match parseNum2 t1, parseNum2 t2, parseYear2 t3 with
    | some m, some d, some y => some ⟨y, m, d⟩
    | _, _, _ => none
  | dmy2Dash, t1, t2, t3 =>
    match parseNum2 t1, parseNum2 t2, parseYear2 t3 with
    | some d, some m, some y => some ⟨y, m, d⟩
    | _, _, _ => none

/-- Split a character list on a separator (all occurrences, keeping empty
tokens — the token structure CPython's format regex effectively imposes). -/
def splitOnChar (sep : Char) : List Char → List (List Char)
  | [] => [[]]
  | c :: rest =>
    match splitOnChar sep rest with
    | [] => [[]]
    | t :: ts => if c = sep then [] :: t :: ts else (c :: t) :: ts

/-- `datetime.strptime(value, fmt)` for one of the eight formats: the value
must consist of exactly three tokens split by the separator, each token
must match its field pattern, and the result must be a valid calendar
date. -/
def parseWithFormat (f : DateFormat) (cs : List Char) : Option Date :=
  match splitOnChar f.sep cs with
  | [t1, t2, t3] =>
    match f.build t1 t2 t3 with
    | some d => if validDate d then some d else none
    | none => none
  | _ => none

/-- `date_formats` in source order. -/
def dateFormats : List DateFormat :=
  [.ymdDash, .dmySlash, .mdySlash, .dmyDash, .ymdSlash,
   .dmy2Slash, .mdy2Slash, .dmy2Dash]

/-- The `for fmt in date_formats` loop: first successful parse wins. -/
def tryFormatsFrom : List DateFormat → List Char → Option Date
  | [], _ => none
  | f :: fs, cs =>
    match parseWithFormat f cs with
    | some d => some d
    | none => tryFormatsFrom fs cs

def parseDateValue (cs : List Char) : Option Date := tryFormatsFrom dateFormats cs

def digitChar (n : Nat) : Char := Char.ofNat (48 + n)

def pad2 (n : Nat) : List Char := [digitChar (n / 10 % 10), digitChar (n % 10)]

def pad4 (n : Nat) : List Char :=
  [digitChar (n / 1000 % 10), digitChar (n / 100 % 10),
   digitChar (n / 10 % 10), digitChar (n % 10)]

/-- `strftime("%Y-%m-%d")` (zero-padded). -/
def renderISO (d : Date) : List Char :=
  pad4 d.year ++ ('-' :: pad2 d.month) ++ ('-' :: pad2 d.day)

def renderISOStr (d : Date) : String := String.mk (renderISO d)

/-- `format_date_for_jira` (utility_tasks.py lines 207-251), string branch:
empty input returns `""`; otherwise the stripped value is tried against the
format list and the first successful parse is re-rendered as `YYYY-MM-DD`;
when nothing parses the input is returned unchanged (`str(date_value)`). -/
def format_date_for_jira (s : String) : String :=
  if s = "" then ""
  else
    match parseDateValue (pyStripL s.data) with
    | some d => renderISOStr d
    | none => s

/-! ## C8: the date formatter tries formats in order and degrades to the
raw input -/

lemma parseWithFormat_nil (f : DateFormat) : parseWithFormat f [] = none := by
  cases f <;> rfl

lemma tryFormatsFrom_eq_none (fs : List DateFormat) (cs : List Char)
    (h : ∀ f ∈ fs, parseWithFormat f cs = none) :
    tryFormatsFrom fs cs = none := by
  induction fs with
  | nil => rfl
  | cons f fs ih =>
    rw [tryFormatsFrom, h f (by simp)]
    exact ih (fun g hg => h g (by simp [hg]))

lemma tryFormatsFrom_first (fs : List DateFormat) (cs : List Char) (i : Nat)
    (d : Date) (hi : i < fs.length)
    (hp : parseWithFormat (fs.get ⟨i, hi⟩) cs = some d)
    (hprev : ∀ j, (hj : j < i) →
      parseWithFormat (fs.get ⟨j, Nat.lt_trans hj hi⟩) cs = none) :
    tryFormatsFrom fs cs = some d := by
  induction fs generalizing i with
  | nil => exact absurd hi (Nat.not_lt_zero i)
  | cons f fs ih =>
    cases i with
    | zero =>
      rw [tryFormatsFrom]
      rw [show parseWithFormat f cs = some d from hp]
    | succ i =>
      have h0 : parseWithFormat f cs = none := by
        simpa using hprev 0 (Nat.succ_pos i)
      rw [tryFormatsFrom, h0]
      exact ih i (Nat.lt_of_succ_lt_succ hi) (by simpa using hp)
        (fun j hj => by simpa using hprev (j + 1) (Nat.succ_lt_succ hj))

/-- C8: for every string, the formatter returns the `YYYY-MM-DD` rendering
of the first format in the fixed ordered list that parses the stripped
value; when no format parses, the input string is returned unchanged
(never an error). -/
theorem c8_first_format_or_unchanged (s : String) :
    ((∀ f ∈ dateFormats, parseWithFormat f (pyStripL s.data) = none) →
      format_date_for_jira s = s)
    ∧ (∀ i d, (hi : i < dateFormats.length) →
        parseWithFormat (dateFormats.get ⟨i, hi⟩) (pyStripL s.data) = some d →
        (∀ j, (hj : j < i) →
          parseWithFormat (dateFormats.get ⟨j, Nat.lt_trans hj hi⟩)
            (pyStripL s.data) = none) →
        format_date_for_jira s = renderISOStr d) := by
  constructor
  · intro h
    by_cases hs : s = ""
    · simp [format_date_for_jira, hs]
    · rw [format_date_for_jira, if_neg hs, parseDateValue,
        tryFormatsFrom_eq_none dateFormats _ h]
  · intro i d hi hp hprev
    have hsome : parseDateValue (pyStripL s.data) = some d :=
      tryFormatsFrom_first dateFormats _ i d hi hp hprev
    by_cases hs : s = ""
    · exfalso
      have : pyStripL s.data = [] := by simp [hs, pyStripL]
      rw [this] at hp
      rw [parseWithFormat_nil] at hp
      exact Option.noConfusion hp
    · rw [format_date_for_jira, if_neg hs, hsome]

/-- Witness for `c8_first_format_or_unchanged`: `"05/06/2024"` fails the
ISO format, parses with `%d/%m/%Y` (index 1), and is rendered as
`2024-06-05`; `"hello"` parses with no format and is returned unchanged. -/
theorem c8_first_format_or_unchanged_witness :
    format_date_for_jira "05/06/2024" = "2024-06-05"
    ∧ format_date_for_jira "hello" = "hello" := by
  constructor
  · have h := (c8_first_format_or_unchanged "05/06/2024").2 1 ⟨2024, 6, 5⟩
      (by decide) (by decide)
      (fun j hj => by
        have hj0 : j = 0 := by omega
        subst hj0
        show parseWithFormat DateFormat.ymdDash
          (pyStripL "05/06/2024".data) = none
        decide)
    rw [h]
    decide
  · exact (c8_first_format_or_unchanged "hello").1 (by decide)

/-! ## C9: `get_date` (utility_tasks.py lines 56-150), offset branch -/

def indonesianMonthName : Nat → String
  | 1 => "Januari"
  | 2 => "Februari"
  | 3 => "Maret"
  | 4 => "April"
  | 5 => "Mei"
  | 6 => "Juni"
  | 7 => "Juli"
  | 8 => "Agustus"
  | 9 => "September"
  | 10 => "Oktober"
  | 11 => "November"
  | 12 => "Desember"
  | _ => ""

/-- `while target_month > 12: target_month -= 12; target_year += 1`
(lines 124-126). -/
def normalizeMonthHigh (m y : Int) : Int × Int :=
  if 12 < m then normalizeMonthHigh (m - 12) (y + 1) else (m, y)
termination_by (m - 12).toNat
decreasing_by simp_wf; omega

/-- `while target_month < 1: target_month += 12; target_year -= 1`
(lines 127-129). -/
def normalizeMonthLow (m y : Int) : Int × Int :=
  if m < 1 then normalizeMonthLow (m + 12) (y - 1) else (m, y)
termination_by (1 - m).toNat
decreasing_by simp_wf; omega

/-- `get_date(date_input=None, format_type="month_year",
language="indonesian")` (lines 116-131 and 140-142): the month/year are
normalized by the two while loops, then
`datetime(target_year, target_month, now.day)` is constructed — which
raises `ValueError` (re-raised by the task, line 150) whenever `now.day`
exceeds the target month's length or the year leaves `datetime`'s range. -/
def getDateOffsetMonthYear (now : Date) (offsetMonths : Int) :
    Except String String :=
  let high := normalizeMonthHigh ((now.month : Int) + offsetMonths) (now.year : Int)
  let low := normalizeMonthLow high.1 high.2
  let tm := low.1
  let ty := low.2
  if 1 ≤ ty ∧ ty ≤ 9999 ∧ 1 ≤ now.day ∧
      now.day ≤ daysInMonth ty.toNat tm.toNat then
    Except.ok (indonesianMonthName tm.toNat ++ " " ++ toString ty)
  else
    Except.error "ValueError: day is out of range for month"

/-- C9 (code bug): the derivation is not total — with current date
2025-01-31 and offset 1 the code builds `datetime(2025, 2, 31)` and raises
`ValueError` (the spec's period-label derivation needs no day at all),
while for a current day that exists in the target month the intended label
is produced. -/
theorem c9_get_date_day_overflow :
    getDateOffsetMonthYear ⟨2025, 1, 31⟩ 1 =
      Except.error "ValueError: day is out of range for month"
    ∧ getDateOffsetMonthYear ⟨2025, 1, 15⟩ 1 = Except.ok "Februari 2025" := by
  constructor
  · simp only [getDateOffsetMonthYear]
    rw [normalizeMonthHigh]
    norm_num
    rw [normalizeMonthLow]
    norm_num
    intro h
    exact absurd h (by decide)
  · simp only [getDateOffsetMonthYear]
    rw [normalizeMonthHigh]
    norm_num
    rw [normalizeMonthLow]
    norm_num
    rw [if_pos (by decide)]
    rfl

/-! ## Structure of successful date parses (support for C4) -/

lemma splitOnChar_ne_nil (sep : Char) (cs : List Char) :
    splitOnChar sep cs ≠ [] := by
  cases cs with
  | nil => simp [splitOnChar]
  | cons c rest =>
    rw [splitOnChar]
    split
    · simp
    · split <;> simp

lemma mem_splitOnChar (sep : Char) (cs : List Char) (c : Char) (hc : c ∈ cs) :
    c = sep ∨ ∃ t ∈ splitOnChar sep cs, c ∈ t := by
  induction cs with
  | nil => simp at hc
  | cons a rest ih =>
    rw [splitOnChar]
    cases hts : splitOnChar sep rest with
    | nil => exact absurd hts (splitOnChar_ne_nil sep rest)
    | cons t ts =>
      simp only [hts]
      rcases List.mem_cons.mp hc with rfl | hmem
      · by_cases ha : c = sep
        · exact Or.inl ha
        · rw [if_neg ha]
          exact Or.inr ⟨c :: t, by simp, by simp⟩
      · rcases ih hmem with h | ⟨t', ht', hct⟩
        · exact Or.inl h
        · rw [hts] at ht'
          by_cases ha : a = sep
          · rw [if_pos ha]
            exact Or.inr ⟨t', by simp [List.mem_cons.mp ht'], hct⟩
          · rw [if_neg ha]
            rcases List.mem_cons.mp ht' with rfl | htts
            · exact Or.inr ⟨a :: t', by simp, by simp [hct]⟩
            · exact Or.inr ⟨t', by simp [htts], hct⟩

lemma parseYear4_digits (t : List Char) (v : Nat) (h : parseYear4 t = some v) :
    allDigits t = true := by
  rw [parseYear4] at h
  split at h
  case isTrue hcond =>
    simp only [Bool.and_eq_true] at hcond
    exact hcond.2
  case isFalse => simp at h

lemma parseYear2_digits (t : List Char) (v : Nat) (h : parseYear2 t = some v) :
    allDigits t = true := by
  rw [parseYear2] at h
  split at h
  case isTrue hcond =>
    simp only [Bool.and_eq_true] at hcond
    exact hcond.2
  case isFalse => simp at h

lemma parseNum2_digits (t : List Char) (v : Nat) (h : parseNum2 t = some v) :
    allDigits t = true := by
  rw [parseNum2] at h
  split at h
  case isTrue hcond =>
    simp only [Bool.and_eq_true] at hcond
    exact hcond.2
  case isFalse => simp at h

lemma build_digits (f : DateFormat) (t1 t2 t3 : List Char) (d : Date)
    (h : f.build t1 t2 t3 = some d) :
    allDigits t1 = true ∧ allDigits t2 = true ∧ allDigits t3 = true := by
  cases f <;>
    · simp only [DateFormat.build] at h
      split at h
      case h_2 => simp at h
      next a b c ha hb hc =>
        first
        | exact ⟨parseYear4_digits _ _ ha, parseNum2_digits _ _ hb,
            parseNum2_digits _ _ hc⟩
        | exact ⟨parseNum2_digits _ _ ha, parseNum2_digits _ _ hb,
            parseYear4_digits _ _ hc⟩
        | exact ⟨parseNum2_digits _ _ ha, parseNum2_digits _ _ hb,
            parseYear2_digits _ _ hc⟩

/-- A successful `strptime`: the parsed date is a valid calendar date and
the input consists solely of digits and the format's separator. -/
lemma parseWithFormat_spec (f : DateFormat) (cs : List Char) (d : Date)
    (h : parseWithFormat f cs = some d) :
    validDate d = true ∧ ∀ c ∈ cs, c.isDigit = true ∨ c = f.sep := by
  rw [parseWithFormat] at h
  rcases hs : splitOnChar f.sep cs with _ | ⟨t1, _ | ⟨t2, _ | ⟨t3, _ | ⟨t4, ts⟩⟩⟩⟩ <;>
    simp only [hs] at h
  · simp at h
  · simp at h
  · simp at h
  · cases hb : f.build t1 t2 t3 with
    | none => rw [hb] at h; simp at h
    | some d0 =>
      rw [hb] at h
      simp only at h
      split at h
      case isFalse => simp at h
      case isTrue hv =>
        obtain rfl : d0 = d := by simpa using h
        obtain ⟨h1, h2, h3⟩ := build_digits f t1 t2 t3 _ hb
        refine ⟨hv, fun c hc => ?_⟩
        rcases mem_splitOnChar f.sep cs c hc with hsep | ⟨t, ht, hct⟩
        · exact Or.inr hsep
        · rw [hs] at ht
          left
          rcases List.mem_cons.mp ht with rfl | ht'
          · exact List.all_eq_true.mp h1 c hct
          · rcases List.mem_cons.mp ht' with rfl | ht''
            · exact List.all_eq_true.mp h2 c hct
            · rcases List.mem_cons.mp ht'' with rfl | ht3
              · exact List.all_eq_true.mp h3 c hct
              · simp at ht3
  · simp at h

lemma tryFormatsFrom_valid (fs : List DateFormat) (cs : List Char) (d : Date)
    (h : tryFormatsFrom fs cs = some d) : validDate d = true := by
  induction fs with
  | nil => simp [tryFormatsFrom] at h
  | cons f fs ih =>
    rw [tryFormatsFrom] at h
    cases hp : parseWithFormat f cs with
    | some d0 =>
      rw [hp] at h
      obtain rfl : d0 = d := by simpa using h
      exact (parseWithFormat_spec f cs _ hp).1
    | none =>
      rw [hp] at h
      exact ih h

/-! ## Rendering round-trips and stripping (support for C4) -/

lemma digitChar_isDigit (n : Nat) (h : n < 10) :
    (digitChar n).isDigit = true := by
  interval_cases n <;> decide

lemma digitVal_digitChar (n : Nat) (h : n < 10) :
    digitVal (digitChar n) = n := by
  interval_cases n <;> decide

lemma digitChar_ne_dash (n : Nat) (h : n < 10) : digitChar n ≠ '-' := by
  interval_cases n <;> decide

lemma isDigit_not_space (c : Char) (h : c.isDigit = true) :
    isPySpace c = false := by
  by_contra hs
  rw [Bool.not_eq_false] at hs
  rw [isPySpace] at hs
  simp only [Bool.or_eq_true, decide_eq_true_eq] at hs
  rcases hs with ((((h1 | h2) | h3) | h4) | h5) | h6 <;> subst_vars <;> simp at h

lemma sep_not_space (f : DateFormat) : isPySpace f.sep = false := by
  cases f <;> decide

lemma dropWhile_eq_self_of_all (p : Char → Bool) (l : List Char)
    (h : ∀ c ∈ l, p c = false) : l.dropWhile p = l := by
  cases l with
  | nil => rfl
  | cons a l =>
    rw [List.dropWhile_cons, h a (by simp)]
    simp

lemma pyStripL_eq_self (cs : List Char)
    (h : ∀ c ∈ cs, isPySpace c = false) : pyStripL cs = cs := by
  rw [pyStripL, dropWhile_eq_self_of_all isPySpace cs h,
    dropWhile_eq_self_of_all isPySpace cs.reverse
      (fun c hc => h c (List.mem_reverse.mp hc)),
    List.reverse_reverse]

/-- A value that `strptime` accepts has no surrounding whitespace, so
stripping it is the identity. -/
lemma parse_ok_pyStripL (f : DateFormat) (cs : List Char) (d : Date)
    (h : parseWithFormat f cs = some d) : pyStripL cs = cs := by
  apply pyStripL_eq_self
  intro c hc
  rcases (parseWithFormat_spec f cs d h).2 c hc with hd | hsep
  · exact isDigit_not_space c hd
  · rw [hsep]
    exact sep_not_space f

lemma splitOnChar_not_mem (sep : Char) (xs : List Char) (h : sep ∉ xs) :
    splitOnChar sep xs = [xs] := by
  induction xs with
  | nil => rfl
  | cons c rest ih =>
    have hc : c ≠ sep := fun hcs => h (by simp [hcs])
    have hrest : sep ∉ rest := fun hr => h (by simp [hr])
    rw [splitOnChar, ih hrest]
    simp only
    rw [if_neg hc]

lemma splitOnChar_append (sep : Char) (xs ys : List Char) (h : sep ∉ xs) :
    splitOnChar sep (xs ++ sep :: ys) = xs :: splitOnChar sep ys := by
  induction xs with
  | nil =>
    rw [List.nil_append, splitOnChar]
    cases hts : splitOnChar sep ys with
    | nil => exact absurd hts (splitOnChar_ne_nil sep ys)
    | cons t ts => simp
  | cons c rest ih =>
    have hc : c ≠ sep := fun hcs => h (by simp [hcs])
    have hrest : sep ∉ rest := fun hr => h (by simp [hr])
    rw [List.cons_append, splitOnChar, ih hrest]
    simp only
    rw [if_neg hc]

lemma pad2_spec (n : Nat) (h : n ≤ 99) :
    allDigits (pad2 n) = true ∧ digitsToNat (pad2 n) = n ∧
    (pad2 n).length = 2 ∧ '-' ∉ pad2 n := by
  have h1 : n / 10 % 10 < 10 := Nat.mod_lt _ (by omega)
  have h2 : n % 10 < 10 := Nat.mod_lt _ (by omega)
  refine ⟨?_, ?_, rfl, ?_⟩
  · simp [pad2, allDigits, digitChar_isDigit _ h1, digitChar_isDigit _ h2]
  · simp only [pad2, digitsToNat, List.foldl,
      digitVal_digitChar _ h1, digitVal_digitChar _ h2]
    omega
  · simp [pad2]
    exact ⟨fun he => digitChar_ne_dash _ h1 he.symm,
      fun he => digitChar_ne_dash _ h2 he.symm⟩

lemma pad4_spec (n : Nat) (h : n ≤ 9999) :
    allDigits (pad4 n) = true ∧ digitsToNat (pad4 n) = n ∧
    (pad4 n).length = 4 ∧ '-' ∉ pad4 n := by
  have h1 : n / 1000 % 10 < 10 := Nat.mod_lt _ (by omega)
  have h2 : n / 100 % 10 < 10 := Nat.mod_lt _ (by omega)
  have h3 : n / 10 % 10 < 10 := Nat.mod_lt _ (by omega)
  have h4 : n % 10 < 10 := Nat.mod_lt _ (by omega)
  refine ⟨?_, ?_, rfl, ?_⟩
  · simp [pad4, allDigits, digitChar_isDigit _ h1, digitChar_isDigit _ h2,
      digitChar_isDigit _ h3, digitChar_isDigit _ h4]
  · simp only [pad4, digitsToNat, List.foldl,
      digitVal_digitChar _ h1, digitVal_digitChar _ h2,
      digitVal_digitChar _ h3, digitVal_digitChar _ h4]
    omega
  · simp [pad4]
    exact ⟨fun he => digitChar_ne_dash _ h1 he.symm,
      fun he => digitChar_ne_dash _ h2 he.symm,
      fun he => digitChar_ne_dash _ h3 he.symm,
      fun he => digitChar_ne_dash _ h4 he.symm⟩

/-- The round trip at the heart of the start/due-date computation:
`strptime(strftime(d, "%Y-%m-%d"), "%Y-%m-%d")` recovers `d` for every
valid calendar date. -/
lemma parse_renderISO (d : Date) (h : validDate d = true) :
    parseWithFormat DateFormat.ymdDash (renderISO d) = some d := by
  rw [validDate, decide_eq_true_eq] at h
  obtain ⟨hy1, hy2, hm1, hm2, hd1, hd2⟩ := h
  have hdm : daysInMonth d.year d.month ≤ 31 := by
    rw [daysInMonth]
    split
    · split <;> omega
    · split <;> omega
  obtain ⟨hYd, hYv, hYl, hYm⟩ := pad4_spec d.year (by omega)
  obtain ⟨hMd, hMv, hMl, hMm⟩ := pad2_spec d.month (by omega)
  obtain ⟨hDd, hDv, hDl, hDm⟩ := pad2_spec d.day (by omega)
  have hsplit : splitOnChar '-' (renderISO d) =
      [pad4 d.year, pad2 d.month, pad2 d.day] := by
    rw [renderISO, List.append_assoc, List.cons_append,
      splitOnChar_append '-' _ _ hYm,
      splitOnChar_append '-' _ _ hMm,
      splitOnChar_not_mem '-' _ hDm]
  rw [parseWithFormat]
  simp only [DateFormat.sep, hsplit]
  rw [DateFormat.build]
  rw [parseYear4, if_pos (by simp [hYl, hYd]), parseNum2,
    if_pos (by simp [hMl, hMd]), parseNum2, if_pos (by simp [hDl, hDd])]
  simp only [hYv, hMv, hDv]
  have hvd : validDate ⟨d.year, d.month, d.day⟩ = true := by
    rw [validDate, decide_eq_true_eq]
    exact ⟨hy1, hy2, hm1, hm2, hd1, hd2⟩
  rw [if_pos hvd]

lemma renderISOStr_ne_empty (d : Date) : renderISOStr d ≠ "" := by
  rw [renderISOStr]
  intro h
  have : renderISO d = [] := by
    have := congrArg String.data h
    simpa using this
  rw [renderISO, pad4] at this
  simp at this

/-! ## Row-to-issue transformer
(`convert_content_plan_row_to_jira_issue`, utility_tasks.py lines 404-666) -/

/-- `datetime - timedelta(days=1)`, one step: `None` models the
`OverflowError` raised when the result would precede `datetime.min`. -/
def predDate (d : Date) : Option Date :=
  if 1 < d.day then some ⟨d.year, d.month, d.day - 1⟩
  else if 1 < d.month then
    some ⟨d.year, d.month - 1, daysInMonth d.year (d.month - 1)⟩
  else if 1 < d.year then some ⟨d.year - 1, 12, 31⟩
  else none

/-- `datetime - timedelta(days=n)`. -/
def subDays : Date → Nat → Option Date
  | d, 0 => some d
  | d, n + 1 =>
    match predDate d with
    | some d2 => subDays d2 n
    | none => none

/-- `dict.get(key)` on a name→id table. -/
def lookupMap (m : List (String × String)) (k : String) : Option String :=
  match m.find? (fun p => p.1 == k) with
  | some p => some p.2
  | none => none

/-- `dict.get(key, "")`. -/
def lookupMapD (m : List (String × String)) (k : String) : String :=
  (lookupMap m k).getD ""

/-- The start/due-date computation (lines 463-481): skipped when
`publication_date` is falsy; `strptime(publication_date, "%Y-%m-%d")`
failing with `ValueError` is caught and leaves the field empty; an
`OverflowError` from the subtraction is *not* caught (`except ValueError`
only) and propagates out of the task. -/
def computeOffsetDate (publicationDate : String) (days : Nat) :
    Except String String :=
  if publicationDate = "" then Except.ok ""
  else
    match parseWithFormat DateFormat.ymdDash publicationDate.data with
    | none => Except.ok ""
    | some d =>
      match subDays d days with
      | some d2 => Except.ok (renderISOStr d2)
      | none => Except.error "OverflowError: date value out of range"

/-- The transformed work-item payload (the `fields` the transformer emits;
the constant-shaped rich-text `description` block — a fixed sequence of
label/value paragraphs echoing row columns — and the audit `metadata`
block are not modelled: no claim concerns them). -/
structure JiraIssue where
  summary : String
  projectKey : String
  issuetypeId : String
  components : List String
  publication_date : String
  start_date : String
  due_date : String
  field_associate : Option String
  reporter : Option String
  content_editor : Option String
  priorityId : String
  content_type : String
  assignee : Option String
deriving DecidableEq, Repr

/-- `WORKERS` (hashmap.py lines 2-15). -/
def WORKERS : List (String × String) :=
  [("Alia Ayya", "712020:66fed40e-a999-406a-a1e9-58e2347474ac"),
   ("Arista Prasandha", "712020:68976ad4-7f9f-4fd7-b6f1-0dd9af89ce12"),
   ("Anggit Rigen Mandegani", "712020:7ffdc0ec-3856-450c-a1b1-adbfb2605154"),
   ("Defi Priana", "712020:5f3e2f3b-6f3b-4e2e- ninetyf-1c4b8e2e5c3d"),
   ("Farah Qurrotu Aini", "712020:d882eb3f-72b2-435a-bc7b-396ed719b33b"),
   ("Halimatudz Dzakiyah", "712020:aca16589-e25b-416f-b295-fe663315a99d"),
   ("Nathaniella Dwi Arthanti", "712020:d1149fc3-0a52-4277-a83b-3ef564cb889b"),
   ("Noktah Inovasi Teknologi", "712020:5f41db40-76d3-400a-a78a-df5dc433c8cc"),
   ("Siti Nurhayati", "712020:c4884994-9302-4d63-bc22-513656d41516"),
   ("Prastara Dito", "712020:3ff573f8-3d40-466b-9abc-6dcae8a45201"),
   ("Muhammad Rozzan Abdillah", "712020:53d2a112-d408-48db-96f0-5698ad9ca6d9"),
   ("Bayu Wiranata", "712020:d18c7dcc-de48-44d5-b846-d04c6ed6a7ab")]

/-- `CONTENT_EDITOR` (hashmap.py lines 50-78). -/
def CONTENT_EDITOR : List (String × String) :=
  [("Ecky Dental Center", "Nathaniella Dwi Arthanti"),
   ("Klinik Utama Sumenep", "Nathaniella Dwi Arthanti"),
   ("Klinik Mata Boyolali", "Nathaniella Dwi Arthanti"),
   ("Gudang Karung Jumbo Sidoarjo", "Nathaniella Dwi Arthanti"),
   ("Klinik Spesialis Langsa", "Nathaniella Dwi Arthanti"),
   ("RS Mata SMEC Medan", "Noktah Inovasi Teknologi"),
   ("ORM JBB Pertamina PN", "Noktah Inovasi Teknologi"),
   ("Persada Darul Ulum", "Noktah Inovasi Teknologi"),
   ("LASIK Asyik by SMEC Tebet", "Noktah Inovasi Teknologi"),
   ("Klinik Mata Sampang", "Noktah Inovasi Teknologi"),
   ("Klinik Utama Gasa", "Noktah Inovasi Teknologi"),
   ("Klinik Mata Bireuen", "Alia Ayya"),
   ("Klinik Utama Gresik", "Alia Ayya"),
   ("Nirwana Coffee Space Sumenep", "Alia Ayya"),
   ("Balakosa Rewind and Play", "Alia Ayya"),
   ("Batik Umrah & Travel", "Alia Ayya"),
   ("Nirwana Coffee Space Pamekasan", "Anggit Rigen Mandegani"),
   ("Klinik Mata Jogja", "Anggit Rigen Mandegani"),
   ("Pelita Delapan", "Anggit Rigen Mandegani"),
   ("RS Mata SMEC Balikpapan", "Anggit Rigen Mandegani"),
   ("Karsa Studio", "Anggit Rigen Mandegani"),
   ("Eskala", "Prastara Dito"),
   ("Memomancy", "Prastara Dito")]

/-- `FIELD_ASSOCIATE` (hashmap.py lines 81-107). -/
def FIELD_ASSOCIATE : List (String × String) :=
  [("Gudang Karung Jumbo Sidoarjo", "Farah Qurrotu Aini"),
   ("Klinik Utama Gresik", "Farah Qurrotu Aini"),
   ("Klinik Mata Sampang", "Farah Qurrotu Aini"),
   ("Persada Darul Ulum", "Farah Qurrotu Aini"),
   ("Klinik Mata Boyolali", "Halimatudz Dzakiyah"),
   ("RS Mata SMEC Medan", "Halimatudz Dzakiyah"),
   ("RS Mata SMEC Balikpapan", "Halimatudz Dzakiyah"),
   ("Nirwana Coffee Space Sumenep", "Siti Nurhayati"),
   ("Nirwana Coffee Space Pamekasan", "Siti Nurhayati"),
   ("Balakosa Rewind and Play", "Siti Nurhayati"),
   ("Ecky Dental Center", "Siti Nurhayati"),
   ("Klinik Utama Sumenep", "Siti Nurhayati"),
   ("Karsa Studio", "Siti Nurhayati"),
   ("Pelita Delapan", "Siti Nurhayati"),
   ("Klinik Utama Gasa", "Muhammad Rozzan Abdillah"),
   ("Batik Umrah & Travel", "Muhammad Rozzan Abdillah"),
   ("Klinik Mata Jogja", "Muhammad Rozzan Abdillah"),
   ("ORM JBB Pertamina PN", "Bayu Wiranata"),
   ("Klinik Mata Bireuen", "Bayu Wiranata"),
   ("LASIK Asyik by SMEC Tebet", "Bayu Wiranata"),
   ("Klinik Spesialis Langsa", "Bayu Wiranata")]

/-- The default `component_hashmap` (utility_tasks.py lines 424-445). -/
def defaultComponentHashmap : List (String × String) :=
  [("Balakosa Rewind and Play", "10034"),
   ("Ecky Dental Center", "10000"),
   ("Gudang Karung Jumbo Sidoarjo", "10010"),
   ("Kabin Event Organizer", "10003"),
   ("Karsa Studio", "10099"),
   ("Klinik Mata Bireuen", "10101"),
   ("Klinik Mata Boyolali", "10008"),
   ("Klinik Mata Jogja", "10068"),
   ("Klinik Mata Sampang", "10006"),
   ("Klinik Spesialis Langsa", "10033"),
   ("Klinik Utama Gresik", "10007"),
   ("Klinik Utama Sumenep", "10005"),
   ("Lasik Asyik by SMEC Tebet", "10009"),
   ("Nirwana Coffee Space Pamekasan", "10002"),
   ("Nirwana Coffee Space Sumenep", "10001"),
   ("Pelita Delapan", "10100"),
   ("Qur\x27anic Integrated School of Muhammadiyah (QISMu)", "10004"),
   ("RS Mata SMEC Balikpapan", "10067"),
   ("Satoe Rock Steak", "10066")]

/-- `convert_content_plan_row_to_jira_issue` (lines 404-666): summary from
`Topik` (falsy value replaced by the `"Content Asset"` placeholder, then
`str(...).strip()`), component id looked up in the hashmap, publication
date normalized by `format_date_for_jira`, start/due dates derived by
−7/−1 days, person references resolved through the two lookup chains; an
uncaught exception in the date arithmetic is an `Except.error`. -/
def convert_content_plan_row_to_jira_issue (row : Row) (clientName : String)
    (componentHashmap workers fieldAssociate contentEditor :
      List (String × String)) : Except String JiraIssue := do
  let summary0 := rowGet row "Topik"
  let summary := if summary0 = "" then "Content Asset" else summary0
  let componentId := lookupMap componentHashmap clientName
  let publicationDate := format_date_for_jira (rowGet row "Tanggal")
  let startDate ← computeOffsetDate publicationDate 7
  let dueDate ← computeOffsetDate publicationDate 1
  let faName := lookupMapD fieldAssociate clientName
  let faId := if faName ≠ "" then lookupMapD workers faName else ""
  let ceName := lookupMapD contentEditor clientName
  let ceId := if ceName ≠ "" then lookupMapD workers ceName else ""
  let reporterId := lookupMapD workers "Noktah Inovasi Teknologi"
  let contentType := rowGet row "Bentuk"
  Except.ok
    { summary := pyStrip summary
      projectKey := "ESKL"
      issuetypeId := "10009"
      components :=
        match componentId with
        | some cid => if cid ≠ "" then [cid] else []
        | none => []
      publication_date := publicationDate
      start_date := startDate
      due_date := dueDate
      field_associate := if faId ≠ "" then some faId else none
      reporter := if reporterId ≠ "" then some reporterId else none
      content_editor := if ceId ≠ "" then some ceId else none
      priorityId := "5"
      content_type := contentType
      assignee := if faId ≠ "" then some faId else none }

/-! ## C4: start/due date derivation -/

lemma subDays_succ_bind (d : Date) (n : Nat) :
    subDays d (n + 1) = (subDays d n).bind predDate := by
  induction n generalizing d with
  | zero =>
    rw [subDays]
    cases hp : predDate d <;> simp [subDays, hp]
  | succ n ih =>
    rw [subDays]
    cases hp : predDate d with
    | some d2 =>
      show subDays d2 (n + 1) = (subDays d (n + 1)).bind predDate
      have hrhs : subDays d (n + 1) = subDays d2 n := by
        rw [subDays, hp]
      rw [hrhs, ih d2]
    | none =>
      show (none : Option Date) = (subDays d (n + 1)).bind predDate
      have hrhs : subDays d (n + 1) = none := by
        rw [subDays, hp]
      rw [hrhs]
      rfl

lemma subDays_none_add (d : Date) (m k : Nat) (h : subDays d m = none) :
    subDays d (m + k) = none := by
  induction k with
  | zero => exact h
  | succ k ih =>
    rw [show m + (k + 1) = (m + k) + 1 by omega, subDays_succ_bind, ih]
    rfl

lemma subDays_one_of_seven (d : Date) (d7 : Date)
    (h7 : subDays d 7 = some d7) : ∃ d1, subDays d 1 = some d1 := by
  cases h1 : subDays d 1 with
  | some d1 => exact ⟨d1, rfl⟩
  | none =>
    have := subDays_none_add d 1 6 h1
    rw [show (1 + 6 : Nat) = 7 from rfl] at this
    rw [this] at h7
    exact absurd h7 (by simp)

lemma parseDateValue_head (cs : List Char) (d : Date)
    (h : parseWithFormat DateFormat.ymdDash cs = some d) :
    parseDateValue cs = some d := by
  rw [parseDateValue, dateFormats, tryFormatsFrom, h]

lemma computeOffsetDate_renderISO (d : Date) (days : Nat)
    (hv : validDate d = true) :
    computeOffsetDate (renderISOStr d) days =
      match subDays d days with
      | some d2 => Except.ok (renderISOStr d2)
      | none => Except.error "OverflowError: date value out of range" := by
  rw [computeOffsetDate, if_neg (renderISOStr_ne_empty d)]
  rw [show (renderISOStr d).data = renderISO d from rfl, parse_renderISO d hv]

lemma computeOffsetDate_of_noparse (pub : String) (days : Nat)
    (h : parseWithFormat DateFormat.ymdDash pub.data = none) :
    computeOffsetDate pub days = Except.ok "" := by
  by_cases hp : pub = ""
  · rw [computeOffsetDate, if_pos hp]
  · rw [computeOffsetDate, if_neg hp, h]

/-- Evaluation of the transformer when both offset-date computations
return normally. -/
lemma convert_fields_eq (row : Row) (clientName : String)
    (cm wk fa ce : List (String × String)) (s7 s1 : String)
    (h7 : computeOffsetDate (format_date_for_jira (rowGet row "Tanggal")) 7 =
      Except.ok s7)
    (h1 : computeOffsetDate (format_date_for_jira (rowGet row "Tanggal")) 1 =
      Except.ok s1) :
    convert_content_plan_row_to_jira_issue row clientName cm wk fa ce =
      Except.ok
        { summary := pyStrip (if rowGet row "Topik" = "" then "Content Asset"
            else rowGet row "Topik")
          projectKey := "ESKL"
          issuetypeId := "10009"
          components :=
            match lookupMap cm clientName with
            | some cid => if cid ≠ "" then [cid] else []
            | none => []
          publication_date := format_date_for_jira (rowGet row "Tanggal")
          start_date := s7
          due_date := s1
          field_associate :=
            if (if lookupMapD fa clientName ≠ "" then
                lookupMapD wk (lookupMapD fa clientName) else "") ≠ "" then
              some (if lookupMapD fa clientName ≠ "" then
                lookupMapD wk (lookupMapD fa clientName) else "")
            else none
          reporter :=
            if lookupMapD wk "Noktah Inovasi Teknologi" ≠ "" then
              some (lookupMapD wk "Noktah Inovasi Teknologi") else none
          content_editor :=
            if (if lookupMapD ce clientName ≠ "" then
                lookupMapD wk (lookupMapD ce clientName) else "") ≠ "" then
              some (if lookupMapD ce clientName ≠ "" then
                lookupMapD wk (lookupMapD ce clientName) else "")
            else none
          priorityId := "5"
          content_type := rowGet row "Bentuk"
          assignee :=
            if (if lookupMapD fa clientName ≠ "" then
                lookupMapD wk (lookupMapD fa clientName) else "") ≠ "" then
              some (if lookupMapD fa clientName ≠ "" then
                lookupMapD wk (lookupMapD fa clientName) else "")
            else none } := by
  rw [convert_content_plan_row_to_jira_issue]
  simp only [h7, h1, bind, Except.bind]

/-- C4: for every row whose transformation returns a record, `start_date`
and `due_date` are non-empty iff the row's `Tanggal` value was normalized
to `YYYY-MM-DD` by the date formatter; when they are present they are the
renderings of publication − 7 days and publication − 1 day; when the
publication date did not parse both fields are the empty string. -/
theorem c4_date_derivation (row : Row) (clientName : String)
    (cm wk fa ce : List (String × String)) (rec : JiraIssue)
    (hok : convert_content_plan_row_to_jira_issue row clientName cm wk fa ce =
      Except.ok rec) :
    (rec.start_date ≠ "" ↔
      (parseDateValue (pyStripL (rowGet row "Tanggal").data)).isSome)
    ∧ (rec.due_date ≠ "" ↔
      (parseDateValue (pyStripL (rowGet row "Tanggal").data)).isSome)
    ∧ (∀ d, parseDateValue (pyStripL (rowGet row "Tanggal").data) = some d →
        rec.publication_date = renderISOStr d
        ∧ (∃ d7, subDays d 7 = some d7 ∧ rec.start_date = renderISOStr d7)
        ∧ (∃ d1, subDays d 1 = some d1 ∧ rec.due_date = renderISOStr d1))
    ∧ (parseDateValue (pyStripL (rowGet row "Tanggal").data) = none →
        rec.start_date = "" ∧ rec.due_date = "") := by
  cases hparse : parseDateValue (pyStripL (rowGet row "Tanggal").data) with
  | some d =>
    have hraw : rowGet row "Tanggal" ≠ "" := by
      intro he
      rw [he] at hparse
      have : parseDateValue (pyStripL ("" : String).data) = none := by decide
      rw [this] at hparse
      exact Option.noConfusion hparse
    have hfmt : format_date_for_jira (rowGet row "Tanggal") = renderISOStr d := by
      rw [format_date_for_jira, if_neg hraw, hparse]
    have hv : validDate d = true := tryFormatsFrom_valid dateFormats _ d hparse
    cases hsub7 : subDays d 7 with
    | none =>
      exfalso
      have h7 : computeOffsetDate (format_date_for_jira (rowGet row "Tanggal")) 7 =
          Except.error "OverflowError: date value out of range" := by
        rw [hfmt, computeOffsetDate_renderISO d 7 hv, hsub7]
      rw [convert_content_plan_row_to_jira_issue] at hok
      simp only [h7, bind, Except.bind] at hok
      exact Except.noConfusion hok
    | some d7 =>
      obtain ⟨d1, hsub1⟩ := subDays_one_of_seven d d7 hsub7
      have h7 : computeOffsetDate (format_date_for_jira (rowGet row "Tanggal")) 7 =
          Except.ok (renderISOStr d7) := by
        rw [hfmt, computeOffsetDate_renderISO d 7 hv, hsub7]
      have h1 : computeOffsetDate (format_date_for_jira (rowGet row "Tanggal")) 1 =
          Except.ok (renderISOStr d1) := by
        rw [hfmt, computeOffsetDate_renderISO d 1 hv, hsub1]
      rw [convert_fields_eq row clientName cm wk fa ce _ _ h7 h1] at hok
      have hrec := Except.ok.inj hok
      subst hrec
      refine ⟨?_, ?_, ?_, ?_⟩
      · simp [hparse, renderISOStr_ne_empty d7]
      · simp [hparse, renderISOStr_ne_empty d1]
      · intro d0 hd0
        obtain rfl : d = d0 := Option.some.inj hd0
        exact ⟨by rw [hfmt], ⟨d7, hsub7, rfl⟩, ⟨d1, hsub1, rfl⟩⟩
      · intro hnone
        exact Option.noConfusion hnone
  | none =>
    have hnop : parseWithFormat DateFormat.ymdDash
        (format_date_for_jira (rowGet row "Tanggal")).data = none := by
      have hfmt : format_date_for_jira (rowGet row "Tanggal") =
          rowGet row "Tanggal" := by
        by_cases hraw : rowGet row "Tanggal" = ""
        · rw [hraw]; decide
        · rw [format_date_for_jira, if_neg hraw, hparse]
      rw [hfmt]
      cases hp : parseWithFormat DateFormat.ymdDash (rowGet row "Tanggal").data with
      | none => rfl
      | some d =>
        exfalso
        have hstrip : pyStripL (rowGet row "Tanggal").data =
            (rowGet row "Tanggal").data :=
          parse_ok_pyStripL DateFormat.ymdDash _ d hp
        have : parseDateValue (pyStripL (rowGet row "Tanggal").data) = some d := by
          rw [hstrip]
          exact parseDateValue_head _ d hp
        rw [hparse] at this
        exact Option.noConfusion this
    have h7 := computeOffsetDate_of_noparse _ 7 hnop
    have h1 := computeOffsetDate_of_noparse _ 1 hnop
    rw [convert_fields_eq row clientName cm wk fa ce _ _ h7 h1] at hok
    have hrec := Except.ok.inj hok
    subst hrec
    refine ⟨by simp, by simp, ?_, fun _ => ⟨rfl, rfl⟩⟩
    intro d0 hd0
    exact absurd hd0 (by simp)

/-- Sample row of the spec's end-to-end scenario. -/
def c4SampleRow : Row := [("Topik", "Launch post"), ("Tanggal", "2025-09-10")]

/-- Witness for `c4_date_derivation` at the spec's end-to-end scenario
(`Tanggal = "2025-09-10"` gives start `2025-09-03` and due `2025-09-09`). -/
theorem c4_date_derivation_witness :
    parseDateValue (pyStripL (rowGet c4SampleRow "Tanggal").data) =
      some ⟨2025, 9, 10⟩
    ∧ subDays ⟨2025, 9, 10⟩ 7 = some ⟨2025, 9, 3⟩
    ∧ subDays ⟨2025, 9, 10⟩ 1 = some ⟨2025, 9, 9⟩ := by
  have h := c4_date_derivation c4SampleRow "Acme" [("Acme", "10007")] [] [] []
    { summary := "Launch post", projectKey := "ESKL", issuetypeId := "10009",
      components := ["10007"], publication_date := "2025-09-10",
      start_date := "2025-09-03", due_date := "2025-09-09",
      field_associate := none, reporter := none, content_editor := none,
      priorityId := "5", content_type := "", assignee := none }
    (by decide)
  obtain ⟨-, -, h3, -⟩ := h
  have := h3 ⟨2025, 9, 10⟩ (by decide)
  obtain ⟨-, ⟨d7, hd7, hs7⟩, ⟨d1, hd1, hs1⟩⟩ := this
  refine ⟨by decide, ?_, ?_⟩
  · obtain rfl : d7 = ⟨2025, 9, 3⟩ := by
      have : renderISOStr d7 = "2025-09-03" := hs7.symm
      have hv : subDays (⟨2025, 9, 10⟩ : Date) 7 = some ⟨2025, 9, 3⟩ := by decide
      rw [hv] at hd7
      exact (Option.some.inj hd7).symm
    exact hd7
  · obtain rfl : d1 = ⟨2025, 9, 9⟩ := by
      have hv : subDays (⟨2025, 9, 10⟩ : Date) 1 = some ⟨2025, 9, 9⟩ := by decide
      rw [hv] at hd1
      exact (Option.some.inj hd1).symm
    exact hd1

/-! ## C7: summary derivation -/

/-- `Except` success test (the transformer "fails a row" exactly when it
returns an `Except.error`). -/
def isOkE {ε α : Type} : Except ε α → Bool
  | Except.ok _ => true
  | Except.error _ => false

lemma rowGet_cons_of_ne (k v k' : String) (row : Row)
    (h : (k == k') = false) :
    rowGet ((k, v) :: row) k' = rowGet row k' := by
  have hf : List.find? (fun p => p.1 == k') ((k, v) :: row) =
      List.find? (fun p => p.1 == k') row :=
    List.find?_cons_of_neg _ (by simp_all)
  rw [rowGet, hf, rowGet]

/-- The transformer returns a record exactly when both offset-date
computations return normally — in particular success never depends on the
summary column. -/
lemma convert_isOk (row : Row) (clientName : String)
    (cm wk fa ce : List (String × String)) :
    isOkE (convert_content_plan_row_to_jira_issue row clientName cm wk fa ce) =
      (isOkE (computeOffsetDate (format_date_for_jira (rowGet row "Tanggal")) 7)
        && isOkE (computeOffsetDate (format_date_for_jira (rowGet row "Tanggal")) 1)) := by
  cases h7 : computeOffsetDate (format_date_for_jira (rowGet row "Tanggal")) 7 with
  | error e =>
    rw [convert_content_plan_row_to_jira_issue]
    simp only [h7, bind, Except.bind]
    rfl
  | ok s7 =>
    cases h1 : computeOffsetDate (format_date_for_jira (rowGet row "Tanggal")) 1 with
    | error e =>
      rw [convert_content_plan_row_to_jira_issue]
      simp only [h7, h1, bind, Except.bind]
      rfl
    | ok s1 =>
      rw [convert_fields_eq row clientName cm wk fa ce s7 s1 h7 h1]
      rfl

/-- The record produced for a whitespace-only `Topik` value. -/
def c7BlankIssue : JiraIssue :=
  { summary := "", projectKey := "ESKL", issuetypeId := "10009",
    components := [], publication_date := "", start_date := "",
    due_date := "", field_associate := none, reporter := none,
    content_editor := none, priorityId := "5", content_type := "",
    assignee := none }

/-- C7 counterexample: a whitespace-only `Topik` value is truthy, so the
placeholder is not substituted; `str(summary).strip()` then empties it,
and the record's summary is `""` rather than the `"Content Asset"`
placeholder the claim requires for a blank value. -/
theorem c7_counterexample :
    convert_content_plan_row_to_jira_issue [("Topik", "   ")] "Acme" [] [] [] [] =
      Except.ok c7BlankIssue
    ∧ c7BlankIssue.summary = ""
    ∧ c7BlankIssue.summary ≠ "Content Asset" := by
  refine ⟨by decide, rfl, by decide⟩

/-- C7 (amended): the record's summary is the stripped `Topik` value, with
the `"Content Asset"` placeholder substituted only when the value is
absent or the empty string (a whitespace-only value escapes the
substitution and strips to an empty summary); the transformer never fails
a row over the summary — whether it returns a record at all is independent
of the `Topik` value. -/
theorem c7_amended (row : Row) (clientName : String)
    (cm wk fa ce : List (String × String)) :
    (∀ rec, convert_content_plan_row_to_jira_issue row clientName cm wk fa ce =
        Except.ok rec →
      rec.summary = pyStrip (if rowGet row "Topik" = "" then "Content Asset"
        else rowGet row "Topik"))
    ∧ (∀ v w, isOkE (convert_content_plan_row_to_jira_issue
          (("Topik", v) :: row) clientName cm wk fa ce) =
        isOkE (convert_content_plan_row_to_jira_issue
          (("Topik", w) :: row) clientName cm wk fa ce)) := by
  constructor
  · intro rec hok
    cases h7 : computeOffsetDate (format_date_for_jira (rowGet row "Tanggal")) 7 with
    | error e =>
      rw [convert_content_plan_row_to_jira_issue] at hok
      simp only [h7, bind, Except.bind] at hok
      exact Except.noConfusion hok
    | ok s7 =>
      cases h1 : computeOffsetDate
          (format_date_for_jira (rowGet row "Tanggal")) 1 with
      | error e =>
        rw [convert_content_plan_row_to_jira_issue] at hok
        simp only [h7, h1, bind, Except.bind] at hok
        exact Except.noConfusion hok
      | ok s1 =>
        rw [convert_fields_eq row clientName cm wk fa ce s7 s1 h7 h1] at hok
        have hrec := Except.ok.inj hok
        subst hrec
        rfl
  · intro v w
    rw [convert_isOk, convert_isOk,
      rowGet_cons_of_ne "Topik" v "Tanggal" row (by decide),
      rowGet_cons_of_ne "Topik" w "Tanggal" row (by decide)]

/-- Record produced for `Topik = "  hi  "`. -/
def c7SampleIssue : JiraIssue :=
  { summary := "hi", projectKey := "ESKL", issuetypeId := "10009",
    components := [], publication_date := "", start_date := "",
    due_date := "", field_associate := none, reporter := none,
    content_editor := none, priorityId := "5", content_type := "",
    assignee := none }

/-- Witness for `c7_amended`: the summary of a concrete transformed row is
the stripped `Topik` value, and success is independent of the `Topik`
value at two concrete values. -/
theorem c7_amended_witness :
    c7SampleIssue.summary =
      pyStrip (if rowGet [("Topik", "  hi  ")] "Topik" = "" then "Content Asset"
        else rowGet [("Topik", "  hi  ")] "Topik")
    ∧ isOkE (convert_content_plan_row_to_jira_issue
          (("Topik", "x") :: []) "X" [] [] [] []) =
        isOkE (convert_content_plan_row_to_jira_issue
          (("Topik", "y") :: []) "X" [] [] [] []) :=
  ⟨(c7_amended [("Topik", "  hi  ")] "X" [] [] [] []).1 c7SampleIssue (by decide),
   (c7_amended [] "X" [] [] [] []).2 "x" "y"⟩

/-! ## Bulk validation and the batch cap
(`validate_bulk_issue_data` / `create_issues_bulk`, jira_tasks.py
lines 677-772 and 518-616) -/

/-- A `project`/`issuetype` reference inside a candidate record: either a
dict carrying the required `key`/`id` property, or ill-formed (not a dict,
or the property missing). -/
inductive JRef
  | keyed (v : String)
  | malformed
deriving DecidableEq, Repr

/-- The `fields` object of a candidate record (`None` components model
absent keys). -/
structure JFields where
  project : Option JRef
  issuetype : Option JRef
  summary : Option String
deriving DecidableEq, Repr

/-- One candidate record of `issue_updates` (summary values are strings,
as produced by the transformer). -/
structure JIssueUpdate where
  fields : Option JFields
deriving DecidableEq, Repr

/-- The per-record checks of the validation loop (lines 703-738), errors
in source order: missing `fields`; the `required_fields` loop over
`project`, `summary`, `issuetype`; project structure; issuetype structure;
blank summary. -/
def checkIssue (iu : JIssueUpdate) : List String :=
  match iu.fields with
  | none => ["Missing \x27fields\x27 property"]
  | some f =>
    (if f.project.isNone then ["Missing required field: project"] else [])
    ++ (if f.summary.isNone then ["Missing required field: summary"] else [])
    ++ (if f.issuetype.isNone then ["Missing required field: issuetype"] else [])
    ++ (match f.project with
        | some JRef.malformed => ["Project must have \x27key\x27 property"]
        | _ => [])
    ++ (match f.issuetype with
        | some JRef.malformed => ["Issuetype must have \x27id\x27 property"]
        | _ => [])
    ++ (match f.summary with
        | some s => if pyStrip s = "" then ["Summary cannot be empty"] else []
        | none => [])

/-- `issue_valid`: no check failed. -/
def issueValid (iu : JIssueUpdate) : Bool := (checkIssue iu).isEmpty

/-- The `for index, issue_update in enumerate(issue_updates)` loop
(lines 703-747): partition into `valid_issues` (in order) and
`invalid_issues` (with 0-based index and error list). -/
def validateLoop : Nat → List JIssueUpdate →
    List JIssueUpdate × List (Nat × JIssueUpdate × List String)
  | _, [] => ([], [])
  | i, iu :: rest =>
    let tail := validateLoop (i + 1) rest
    if issueValid iu then (iu :: tail.1, tail.2)
    else (tail.1, (i, iu, checkIssue iu) :: tail.2)

/-- The warning emitted when the cap truncates (lines 750-753). -/
def limitWarning (a b : Nat) : String := s!"Limiting from {a} to {b} issues"

/-- The validation result dictionary. -/
structure ValidationResult where
  status : String
  original_count : Nat
  valid_issues : List JIssueUpdate
  invalid_issues : List (Nat × JIssueUpdate × List String)
  warnings : List String
  final_count : Nat
  invalid_count : Nat
deriving DecidableEq, Repr

/-- `validate_bulk_issue_data` (lines 677-772): classify every record,
then truncate the valid list to `max_issues` with a warning when it is
longer. -/
def validate_bulk_issue_data (issue_updates : List JIssueUpdate)
    (max_issues : Nat) : ValidationResult :=
  let pair := validateLoop 0 issue_updates
  let valid0 := pair.1
  let warnings :=
    if valid0.length > max_issues then [limitWarning valid0.length max_issues]
    else []
  let valid :=
    if valid0.length > max_issues then valid0.take max_issues else valid0
  { status := "success"
    original_count := issue_updates.length
    valid_issues := valid
    invalid_issues := pair.2
    warnings := warnings
    final_count := valid.length
    invalid_count := pair.2.length }

/-- The guard at the top of `create_issues_bulk` (lines 540-543): the list
actually posted in the one bulk request. -/
def bulkRequested {α : Type} (issue_updates : List α) (max_issues : Nat) :
    List α :=
  if issue_updates.length > max_issues then issue_updates.take max_issues
  else issue_updates

lemma validateLoop_fst (i : Nat) (l : List JIssueUpdate) :
    (validateLoop i l).1 = l.filter issueValid := by
  induction l generalizing i with
  | nil => rfl
  | cons iu rest ih =>
    by_cases h : issueValid iu
    · simp [validateLoop, h, ih]
    · simp [validateLoop, h, ih]

lemma validateLoop_snd (i : Nat) (l : List JIssueUpdate) :
    (validateLoop i l).2 =
      ((List.enumFrom i l).filter (fun p => !issueValid p.2)).map
        (fun p => (p.1, p.2, checkIssue p.2)) := by
  induction l generalizing i with
  | nil => rfl
  | cons iu rest ih =>
    by_cases h : issueValid iu
    · simp [validateLoop, h, List.enumFrom, ih]
    · simp [validateLoop, h, List.enumFrom, ih]

lemma validateLoop_mem (l : List JIssueUpdate) (i j : Nat)
    (iu : JIssueUpdate) (hget : l.get? j = some iu)
    (hbad : issueValid iu = false) :
    (i + j, iu, checkIssue iu) ∈ (validateLoop i l).2 := by
  induction l generalizing i j with
  | nil => simp at hget
  | cons hd rest ih =>
    cases j with
    | zero =>
      obtain rfl : hd = iu := by simpa using hget
      rw [validateLoop]
      simp [hbad]
    | succ j =>
      have htail := ih (i + 1) j (by simpa using hget)
      have harith : i + 1 + j = i + (j + 1) := by omega
      rw [harith] at htail
      rw [validateLoop]
      by_cases h : issueValid hd <;> simp [h, htail]

/-- C5: validation isolates structural defects per record — the function
always returns normally (`status = "success"`), every defective record
lands in `invalid_issues` together with its list of reasons, only records
passing every check are submitted, and the classification of each record
is a pointwise function of that record alone (valid = filter of the
individually-valid, invalid = the indexed individually-invalid), so one
record's defect never blocks the rest of the batch. -/
theorem c5_validation_isolation (issues : List JIssueUpdate) (N : Nat) :
    (validate_bulk_issue_data issues N).status = "success"
    ∧ (validate_bulk_issue_data issues N).invalid_issues =
        ((List.enumFrom 0 issues).filter (fun p => !issueValid p.2)).map
          (fun p => (p.1, p.2, checkIssue p.2))
    ∧ (∀ i iu, issues.get? i = some iu → issueValid iu = false →
        (i, iu, checkIssue iu) ∈
          (validate_bulk_issue_data issues N).invalid_issues)
    ∧ (∀ v ∈ (validate_bulk_issue_data issues N).valid_issues,
        issueValid v = true)
    ∧ (validate_bulk_issue_data issues N).valid_issues =
        (if (issues.filter issueValid).length > N then
          (issues.filter issueValid).take N
        else issues.filter issueValid) := by
  refine ⟨rfl, ?_, ?_, ?_, ?_⟩
  · rw [validate_bulk_issue_data]
    simp only [validateLoop_snd 0 issues]
  · intro i iu hget hbad
    rw [validate_bulk_issue_data]
    simpa using validateLoop_mem issues 0 i iu hget hbad
  · intro v hv
    rw [validate_bulk_issue_data] at hv
    simp only [validateLoop_fst 0 issues] at hv
    split at hv
    · exact List.of_mem_filter (List.mem_of_mem_take hv)
    · exact List.of_mem_filter hv
  · rw [validate_bulk_issue_data]
    simp only [validateLoop_fst 0 issues]

/-- A structurally complete sample record. -/
def c5GoodIssue : JIssueUpdate :=
  ⟨some ⟨some (JRef.keyed "ESKL"), some (JRef.keyed "10009"), some "a post"⟩⟩

/-- A sample record with a blank summary and a malformed project ref. -/
def c5BadIssue : JIssueUpdate :=
  ⟨some ⟨some JRef.malformed, some (JRef.keyed "10009"), some "   "⟩⟩

/-- Witness for `c5_validation_isolation`: in a concrete batch the
defective middle record is reported with its two reasons while the two
good records remain submittable. -/
theorem c5_validation_isolation_witness :
    ((1 : Nat), c5BadIssue, checkIssue c5BadIssue) ∈
      (validate_bulk_issue_data [c5GoodIssue, c5BadIssue, c5GoodIssue]
        45).invalid_issues
    ∧ (validate_bulk_issue_data [c5GoodIssue, c5BadIssue, c5GoodIssue]
        45).valid_issues =
      (if (([c5GoodIssue, c5BadIssue, c5GoodIssue].filter
          issueValid).length > 45) then
        ([c5GoodIssue, c5BadIssue, c5GoodIssue].filter issueValid).take 45
      else [c5GoodIssue, c5BadIssue, c5GoodIssue].filter issueValid) :=
  ⟨(c5_validation_isolation [c5GoodIssue, c5BadIssue, c5GoodIssue] 45).2.2.1
      1 c5BadIssue (by decide) (by decide),
   (c5_validation_isolation [c5GoodIssue, c5BadIssue, c5GoodIssue] 45).2.2.2.2⟩

/-- C3: the submitted valid list never exceeds `max_issues`; when more
records pass validation than the cap, the valid list is the first `N` in
validated order and the result carries the truncation warning holding the
pre-truncation count and `N`; independently, the bulk-create call never
posts more than `max_issues` records in one request. -/
theorem c3_cap_and_truncation (issues : List JIssueUpdate) (N : Nat) :
    (validate_bulk_issue_data issues N).valid_issues.length ≤ N
    ∧ (validate_bulk_issue_data issues N).final_count ≤ N
    ∧ ((issues.filter issueValid).length > N →
        (validate_bulk_issue_data issues N).valid_issues =
          (issues.filter issueValid).take N
        ∧ (validate_bulk_issue_data issues N).warnings =
          [limitWarning (issues.filter issueValid).length N])
    ∧ (∀ (l : List JIssueUpdate), (bulkRequested l N).length ≤ N) := by
  have hfst := validateLoop_fst 0 issues
  have hlen : (validate_bulk_issue_data issues N).valid_issues.length ≤ N := by
    rw [validate_bulk_issue_data]
    simp only [hfst]
    split
    case isTrue h => simp [List.length_take]
    case isFalse h => simpa using Nat.le_of_not_lt h
  refine ⟨hlen, hlen, ?_, ?_⟩
  · intro hgt
    constructor
    · rw [validate_bulk_issue_data]
      simp only [hfst]
      rw [if_pos hgt]
    · rw [validate_bulk_issue_data]
      simp only [hfst]
      rw [if_pos hgt]
  · intro l
    rw [bulkRequested]
    split
    case isTrue h => simp [List.length_take]
    case isFalse h => simpa using Nat.le_of_not_lt h

/-- Witness for `c3_cap_and_truncation`: 3 valid records with a cap of 2
are truncated to the first 2 with the 3→2 warning, and a 3-element bulk
request capped at 2 posts at most 2. -/
theorem c3_cap_and_truncation_witness :
    (validate_bulk_issue_data [c5GoodIssue, c5GoodIssue, c5GoodIssue]
        2).valid_issues = ([c5GoodIssue, c5GoodIssue, c5GoodIssue].filter
          issueValid).take 2
    ∧ (validate_bulk_issue_data [c5GoodIssue, c5GoodIssue, c5GoodIssue]
        2).warnings = [limitWarning (([c5GoodIssue, c5GoodIssue,
          c5GoodIssue].filter issueValid).length) 2]
    ∧ (bulkRequested [c5GoodIssue, c5GoodIssue, c5GoodIssue] 2).length ≤ 2 := by
  have h := c3_cap_and_truncation [c5GoodIssue, c5GoodIssue, c5GoodIssue] 2
  obtain ⟨h1, h2⟩ := h.2.2.1 (by decide)
  exact ⟨h1, h2, h.2.2.2 [c5GoodIssue, c5GoodIssue, c5GoodIssue]⟩

/-! ## Stage result envelopes (C6)

Each flow is modelled as a total function from its external-call outcomes
(oracles) to its result envelope; a raised exception inside a dependency
is an `Except.error`, which the flow's `try`/`except` turns into the
envelope's `error` entry.  Persistence of snapshot files and the inter-item
sleeps are not modelled (they do not affect the envelopes). -/

/-- A status dictionary returned by `google_test_connection` /
`get_server_info` (these catch their own exceptions). -/
structure TestStatus where
  status : String
  errorDetail : Option String
deriving DecidableEq, Repr

/-- `get_spreadsheet_info` result: title plus sheet titles. -/
structure SpreadInfo where
  title : String
  sheets : List String
deriving DecidableEq, Repr

/-- Envelope of `read_content_plan_flow` (lines 58-130). -/
structure ReadEnvelope where
  data : List Row
  error : Option String
deriving DecidableEq, Repr

/-- `read_content_plan_flow` (lines 58-130): connection check, sheet
lookup, data read; every failure path stores an `error` string and the
outer `except` catches dependency exceptions. -/
def read_content_plan_flow (conn : TestStatus)
    (info : Except String SpreadInfo) (sheet : Except String (List Row))
    (sheet_name : String) : ReadEnvelope :=
  if conn.status ≠ "success" then
    { data := [],
      error := some ("Google API connection failed: " ++
        conn.errorDetail.getD "None") }
  else
    match info with
    | Except.error e => { data := [], error := some e }
    | Except.ok inf =>
      if ¬ sheet_name ∈ inf.sheets then
        { data := [],
          error := some ("Sheet \x27" ++ sheet_name ++
            "\x27 not found. Available sheets: " ++ toString inf.sheets) }
      else
        match sheet with
        | Except.error e => { data := [], error := some e }
        | Except.ok rows =>
          if rows.isEmpty then
            { data := [],
              error := some "No content data found in the spreadsheet" }
          else { data := rows, error := none }

/-- Envelope of `search_content_plan_files_flow` (lines 134-278). -/
structure SearchEnvelope where
  output : List OutputItem
  error : Option String
  total_clients : Nat
  clients_processed : Nat
deriving DecidableEq, Repr

/-- `search_content_plan_files_flow` (lines 134-278): read the roster,
resolve the period label (`get_date` may raise, caught by the outer
`except`), then run the locator loop. -/
def search_content_plan_files_flow (conn : TestStatus)
    (info : Except String SpreadInfo) (sheet : Except String (List Row))
    (sheet_name : String) (month : Except String String)
    (oracle : Nat → FileSearchResult) : SearchEnvelope :=
  let r := read_content_plan_flow conn info sheet sheet_name
  match r.error with
  | some e =>
    { output := [], error := some ("Failed to get client data: " ++ e),
      total_clients := 0, clients_processed := 0 }
  | none =>
    match month with
    | Except.error e =>
      { output := [], error := some e, total_clients := 0,
        clients_processed := 0 }
    | Except.ok m =>
      let out := (searchGo oracle m 1 r.data).1
      { output := out, error := none, total_clients := r.data.length,
        clients_processed := out.length }

/-- Envelope of `filter_content_plan_results_flow` (lines 282-373). -/
structure FilterEnvelope where
  filtered_output : List OutputItem
  error : Option String
  original_count : Nat
  filtered_count : Nat
deriving DecidableEq, Repr

/-- `filter_content_plan_results_flow` (lines 282-373). -/
def filter_content_plan_results_flow (conn : TestStatus)
    (info : Except String SpreadInfo) (sheet : Except String (List Row))
    (sheet_name : String) (month : Except String String)
    (oracle : Nat → FileSearchResult) (nums : List Nat)
    (names : List String) : FilterEnvelope :=
  let s := search_content_plan_files_flow conn info sheet sheet_name month oracle
  match s.error with
  | some e =>
    { filtered_output := [],
      error := some ("Failed to get content plan data: " ++ e),
      original_count := 0, filtered_count := 0 }
  | none =>
    let fo := filterOutput nums names s.output
    { filtered_output := fo, error := none,
      original_count := s.output.length, filtered_count := fo.length }

/-- Python truthiness of the stored `content_plan_id`
(`None` and `""` are both falsy). -/
def pyTruthyOpt : Option String → Bool
  | some s => !(s == "")
  | none => false

/-- One entry of `results["content_plans"]` (lines 441-483). -/
structure FetchItem where
  number : Nat
  client_name : String
  content_plan_id : Option String
  data : Option (List Row)
  error : Option String
deriving DecidableEq, Repr

/-- Envelope of `read_content_plan_data_flow` (lines 377-510). -/
structure FetchEnvelope where
  content_plans : List FetchItem
  error : Option String
deriving DecidableEq, Repr

/-- The per-item fetch loop (lines 441-488): items without a truthy
content-plan id are passed through with the explicit
"No content plan ID available" marker and not fetched; a fetch exception
becomes that item's `error`. -/
def fetchLoop (fetchOracle : Nat → Except String (List Row)) :
    Nat → List OutputItem → List FetchItem
  | _, [] => []
  | i, item :: rest =>
    let entry : FetchItem :=
      if !(pyTruthyOpt item.content_plan_id) then
        ⟨item.number, item.client_name, none, none,
          some "No content plan ID available"⟩
      else
        match fetchOracle i with
        | Except.ok rows =>
          ⟨item.number, item.client_name, item.content_plan_id, some rows, none⟩
        | Except.error e =>
          ⟨item.number, item.client_name, item.content_plan_id, none, some e⟩
    entry :: fetchLoop fetchOracle (i + 1) rest

/-- `read_content_plan_data_flow` (lines 377-510): takes the filtered list
when numeric/name criteria are given, the full search output otherwise,
then fetches each located document (randomized inter-request delays are
timing-only and not modelled). -/
def read_content_plan_data_flow (conn : TestStatus)
    (info : Except String SpreadInfo) (sheet : Except String (List Row))
    (sheet_name : String) (month : Except String String)
    (oracle : Nat → FileSearchResult) (nums : List Nat)
    (names : List String) (fetchOracle : Nat → Except String (List Row)) :
    FetchEnvelope :=
  if !nums.isEmpty || !names.isEmpty then
    let f := filter_content_plan_results_flow conn info sheet sheet_name
      month oracle nums names
    match f.error with
    | some e =>
      { content_plans := [],
        error := some ("Failed to get filtered results: " ++ e) }
    | none =>
      { content_plans := fetchLoop fetchOracle 0 f.filtered_output,
        error := none }
  else
    let s := search_content_plan_files_flow conn info sheet sheet_name
      month oracle
    match s.error with
    | some e =>
      { content_plans := [],
        error := some ("Failed to get content plan data: " ++ e) }
    | none =>
      { content_plans := fetchLoop fetchOracle 0 s.output, error := none }

/-- One entry of `results["jira_assets"]` (lines 705-711). -/
structure ClientAssets where
  client_name : String
  content_plan_id : Option String
  assets : List JiraIssue
  asset_count : Nat
deriving DecidableEq, Repr

/-- Envelope of `convert_content_plan_to_jira_assets_flow`
(lines 640-789). -/
structure TransformEnvelope where
  jira_assets : List ClientAssets
  error : Option String
deriving DecidableEq, Repr

/-- The per-client transform loop (lines 682-711): clients carrying an
error or no data are skipped; each row is converted, a raising row is
logged and dropped; clients with at least one asset are collected. -/
def transformLoop (cm : List (String × String)) :
    List FetchItem → List ClientAssets
  | [] => []
  | item :: rest =>
    if item.error.isSome || item.data.isNone then transformLoop cm rest
    else
      let assets := (item.data.getD []).filterMap (fun row =>
        (convert_content_plan_row_to_jira_issue row item.client_name cm
          WORKERS FIELD_ASSOCIATE CONTENT_EDITOR).toOption)
      if assets.isEmpty then transformLoop cm rest
      else
        ⟨item.client_name, item.content_plan_id, assets, assets.length⟩ ::
          transformLoop cm rest

/-- `convert_content_plan_to_jira_assets_flow` (lines 640-789); `cm` is
the resolved component hashmap (`component_hashmap` or the default). -/
def convert_content_plan_to_jira_assets_flow (conn : TestStatus)
    (info : Except String SpreadInfo) (sheet : Except String (List Row))
    (sheet_name : String) (month : Except String String)
    (oracle : Nat → FileSearchResult) (nums : List Nat)
    (names : List String) (fetchOracle : Nat → Except String (List Row))
    (cm : List (String × String)) : TransformEnvelope :=
  let f := read_content_plan_data_flow conn info sheet sheet_name month
    oracle nums names fetchOracle
  match f.error with
  | some e =>
    { jira_assets := [],
      error := some ("Failed to get content plan data: " ++ e) }
  | none =>
    { jira_assets := transformLoop cm f.content_plans, error := none }

/-- `read_jira_formatted_json` result (the task catches its own
exceptions and reports a status dict). -/
structure JsonReadResult where
  status : String
  errorDetail : Option String
  issue_updates : List JIssueUpdate
deriving DecidableEq, Repr

/-- `create_issues_bulk` result (the task catches its own exceptions and
reports a status dict). -/
structure BulkOutcome where
  status : String
  errorDetail : Option String
  total_created : Nat
  total_errors : Nat
deriving DecidableEq, Repr

/-- One entry of `results["client_results"]` (lines 848-923). -/
structure ClientResult where
  client_name : String
  status : String
  error : Option String
  issues_created : Nat
deriving DecidableEq, Repr

/-- Envelope of `bulk_create_jira_issues_per_client_flow`
(lines 792-942). -/
structure SubmitEnvelope where
  client_results : List ClientResult
  error : Option String
deriving DecidableEq, Repr

/-- The per-client submission loop (lines 848-923): JSON-read failure,
validation, validate-only mode, bulk creation outcome — every failure is
recorded per client and never aborts the loop. -/
def submitLoop (jsonRead : Nat → JsonReadResult)
    (bulkOracle : Nat → BulkOutcome) (validateOnly : Bool)
    (maxIssues : Nat) : Nat → List String → List ClientResult
  | _, [] => []
  | i, name :: rest =>
    let tail := submitLoop jsonRead bulkOracle validateOnly maxIssues (i + 1) rest
    let jr := jsonRead i
    if jr.status ≠ "success" then
      ⟨name, "error",
        some ("Failed to read JSON: " ++ jr.errorDetail.getD "None"), 0⟩ :: tail
    else
      let v := validate_bulk_issue_data jr.issue_updates maxIssues
      if v.status ≠ "success" then
        ⟨name, "error", some "Validation failed: None", 0⟩ :: tail
      else if validateOnly then ⟨name, "validated", none, 0⟩ :: tail
      else if 0 < v.final_count then
        let b := bulkOracle i
        if b.status = "success" then
          ⟨name, "success", none, b.total_created⟩ :: tail
        else ⟨name, "error", b.errorDetail, 0⟩ :: tail
      else ⟨name, "no_valid_issues", none, 0⟩ :: tail

/-- `bulk_create_jira_issues_per_client_flow` (lines 792-942): the only
stage-fatal condition is a failed Jira connection check, which is skipped
entirely in validate-only mode. -/
def bulk_create_jira_issues_per_client_flow (clientNames : List String)
    (server : TestStatus) (jsonRead : Nat → JsonReadResult)
    (bulkOracle : Nat → BulkOutcome) (validateOnly : Bool)
    (maxIssues : Nat) : SubmitEnvelope :=
  if !validateOnly && server.status ≠ "success" then
    { client_results := [],
      error := some ("Jira connection failed: " ++
        server.errorDetail.getD "None") }
  else
    { client_results :=
        submitLoop jsonRead bulkOracle validateOnly maxIssues 0 clientNames,
      error := none }

/-! ## C6: error reporting at every stage boundary -/

lemma read_error_iff (conn : TestStatus) (info : Except String SpreadInfo)
    (sheet : Except String (List Row)) (sn : String) :
    (read_content_plan_flow conn info sheet sn).error = none ↔
      (conn.status = "success" ∧ ∃ inf rows, info = Except.ok inf ∧
        sn ∈ inf.sheets ∧ sheet = Except.ok rows ∧ rows ≠ []) := by
  by_cases hc : conn.status = "success"
  · cases info with
    | error e => simp [read_content_plan_flow, hc]
    | ok inf =>
      by_cases hs : sn ∈ inf.sheets
      · cases sheet with
        | error e => simp [read_content_plan_flow, hc, hs]
        | ok rows =>
          by_cases hr : rows = []
          · simp [read_content_plan_flow, hc, hs, hr]
          · simp [read_content_plan_flow, hc, hs, List.isEmpty_iff, hr]
      · simp [read_content_plan_flow, hc, hs]
  · simp [read_content_plan_flow, hc]

lemma read_data_ne_nil (conn : TestStatus) (info : Except String SpreadInfo)
    (sheet : Except String (List Row)) (sn : String)
    (h : (read_content_plan_flow conn info sheet sn).error = none) :
    (read_content_plan_flow conn info sheet sn).data ≠ [] := by
  obtain ⟨hc, inf, rows, hinfo, hs, hsheet, hne⟩ :=
    (read_error_iff conn info sheet sn).mp h
  subst hinfo
  subst hsheet
  simp [read_content_plan_flow, hc, hs, List.isEmpty_iff, hne]

lemma search_error_iff (conn : TestStatus) (info : Except String SpreadInfo)
    (sheet : Except String (List Row)) (sn : String)
    (month : Except String String) (oracle : Nat → FileSearchResult) :
    (search_content_plan_files_flow conn info sheet sn month oracle).error = none ↔
      ((read_content_plan_flow conn info sheet sn).error = none ∧
        ∃ m, month = Except.ok m) := by
  cases hre : (read_content_plan_flow conn info sheet sn).error with
  | some e => simp [search_content_plan_files_flow, hre]
  | none =>
    cases month with
    | error e => simp [search_content_plan_files_flow, hre]
    | ok m => simp [search_content_plan_files_flow, hre]

lemma filter_error_iff (conn : TestStatus) (info : Except String SpreadInfo)
    (sheet : Except String (List Row)) (sn : String)
    (month : Except String String) (oracle : Nat → FileSearchResult)
    (nums : List Nat) (names : List String) :
    (filter_content_plan_results_flow conn info sheet sn month oracle
      nums names).error = none ↔
      (search_content_plan_files_flow conn info sheet sn month
        oracle).error = none := by
  cases hse : (search_content_plan_files_flow conn info sheet sn month
      oracle).error with
  | some e => simp [filter_content_plan_results_flow, hse]
  | none => simp [filter_content_plan_results_flow, hse]

lemma fetch_error_iff (conn : TestStatus) (info : Except String SpreadInfo)
    (sheet : Except String (List Row)) (sn : String)
    (month : Except String String) (oracle : Nat → FileSearchResult)
    (nums : List Nat) (names : List String)
    (fo : Nat → Except String (List Row)) :
    (read_content_plan_data_flow conn info sheet sn month oracle nums names
      fo).error = none ↔
      (search_content_plan_files_flow conn info sheet sn month
        oracle).error = none := by
  by_cases hcrit : (!nums.isEmpty || !names.isEmpty) = true
  · cases hfe : (filter_content_plan_results_flow conn info sheet sn month
        oracle nums names).error with
    | some e =>
      have hs : ¬ (search_content_plan_files_flow conn info sheet sn month
          oracle).error = none := by
        rw [← filter_error_iff conn info sheet sn month oracle nums names]
        simp [hfe]
      simp [read_content_plan_data_flow, hcrit, hfe, hs]
    | none =>
      have hs : (search_content_plan_files_flow conn info sheet sn month
          oracle).error = none :=
        (filter_error_iff conn info sheet sn month oracle nums names).mp hfe
      simp [read_content_plan_data_flow, hcrit, hfe, hs]
  · cases hse : (search_content_plan_files_flow conn info sheet sn month
        oracle).error with
    | some e => simp [read_content_plan_data_flow, hcrit, hse]
    | none => simp [read_content_plan_data_flow, hcrit, hse]

lemma transform_error_iff (conn : TestStatus) (info : Except String SpreadInfo)
    (sheet : Except String (List Row)) (sn : String)
    (month : Except String String) (oracle : Nat → FileSearchResult)
    (nums : List Nat) (names : List String)
    (fo : Nat → Except String (List Row)) (cm : List (String × String)) :
    (convert_content_plan_to_jira_assets_flow conn info sheet sn month oracle
      nums names fo cm).error = none ↔
      (search_content_plan_files_flow conn info sheet sn month
        oracle).error = none := by
  cases hfe : (read_content_plan_data_flow conn info sheet sn month oracle
      nums names fo).error with
  | some e =>
    have hs : ¬ (search_content_plan_files_flow conn info sheet sn month
        oracle).error = none := by
      rw [← fetch_error_iff conn info sheet sn month oracle nums names fo]
      simp [hfe]
    simp [convert_content_plan_to_jira_assets_flow, hfe, hs]
  | none =>
    have hs : (search_content_plan_files_flow conn info sheet sn month
        oracle).error = none :=
      (fetch_error_iff conn info sheet sn month oracle nums names fo).mp hfe
    simp [convert_content_plan_to_jira_assets_flow, hfe, hs]

lemma submit_error_iff (clientNames : List String) (server : TestStatus)
    (jsonRead : Nat → JsonReadResult) (bulkOracle : Nat → BulkOutcome)
    (vo : Bool) (mi : Nat) :
    (bulk_create_jira_issues_per_client_flow clientNames server jsonRead
      bulkOracle vo mi).error = none ↔
      (vo = true ∨ server.status = "success") := by
  by_cases hvo : vo = true
  · simp [bulk_create_jira_issues_per_client_flow, hvo]
  · by_cases hss : server.status = "success"
    · simp [bulk_create_jira_issues_per_client_flow, hvo, hss]
    · simp [bulk_create_jira_issues_per_client_flow, hvo, hss]

/-- C6 counterexample: a successful locator run over a roster whose only
client is skipped returns an envelope whose item list is empty and which
carries no `error` key — so "a populated item list or an explicit error"
does not hold of every stage output. -/
theorem c6_counterexample :
    (search_content_plan_files_flow ⟨"success", none⟩
        (Except.ok ⟨"T", ["Clients"]⟩)
        (Except.ok [[("Name", ""), ("Content Plan Folder ID", "f1")]])
        "Clients" (Except.ok "September 2025")
        (fun _ => Except.ok [])).output = []
    ∧ (search_content_plan_files_flow ⟨"success", none⟩
        (Except.ok ⟨"T", ["Clients"]⟩)
        (Except.ok [[("Name", ""), ("Content Plan Folder ID", "f1")]])
        "Clients" (Except.ok "September 2025")
        (fun _ => Except.ok [])).error = none := by
  constructor <;> decide

/-- C6 (amended): every stage is a total function of its dependency
outcomes (no exception crosses a stage boundary — dependency exceptions
are `Except.error` inputs absorbed into the envelope), each stage's
envelope carries `error = none` exactly when its dependencies succeeded
(so callers detect every expected failure mode by checking `error`), and
the roster-read stage moreover has a non-empty item list whenever
`error` is absent; later stages may legitimately return an *empty* item
list with no error (see the counterexample), so "populated or error" is
weakened to "item list (possibly empty) or error". -/
theorem c6_stage_envelopes :
    (∀ (conn : TestStatus) (info : Except String SpreadInfo)
        (sheet : Except String (List Row)) (sn : String),
      ((read_content_plan_flow conn info sheet sn).error = none ↔
        (conn.status = "success" ∧ ∃ inf rows, info = Except.ok inf ∧
          sn ∈ inf.sheets ∧ sheet = Except.ok rows ∧ rows ≠ []))
      ∧ ((read_content_plan_flow conn info sheet sn).error = none →
          (read_content_plan_flow conn info sheet sn).data ≠ []))
    ∧ (∀ (conn : TestStatus) (info : Except String SpreadInfo)
        (sheet : Except String (List Row)) (sn : String)
        (month : Except String String) (oracle : Nat → FileSearchResult),
      (search_content_plan_files_flow conn info sheet sn month
        oracle).error = none ↔
        ((read_content_plan_flow conn info sheet sn).error = none ∧
          ∃ m, month = Except.ok m))
    ∧ (∀ (conn : TestStatus) (info : Except String SpreadInfo)
        (sheet : Except String (List Row)) (sn : String)
        (month : Except String String) (oracle : Nat → FileSearchResult)
        (nums : List Nat) (names : List String),
      (filter_content_plan_results_flow conn info sheet sn month oracle
        nums names).error = none ↔
        (search_content_plan_files_flow conn info sheet sn month
          oracle).error = none)
    ∧ (∀ (conn : TestStatus) (info : Except String SpreadInfo)
        (sheet : Except String (List Row)) (sn : String)
        (month : Except String String) (oracle : Nat → FileSearchResult)
        (nums : List Nat) (names : List String)
        (fo : Nat → Except String (List Row)),
      (read_content_plan_data_flow conn info sheet sn month oracle nums
        names fo).error = none ↔
        (search_content_plan_files_flow conn info sheet sn month
          oracle).error = none)
    ∧ (∀ (conn : TestStatus) (info : Except String SpreadInfo)
        (sheet : Except String (List Row)) (sn : String)
        (month : Except String String) (oracle : Nat → FileSearchResult)
        (nums : List Nat) (names : List String)
        (fo : Nat → Except String (List Row)) (cm : List (String × String)),
      (convert_content_plan_to_jira_assets_flow conn info sheet sn month
        oracle nums names fo cm).error = none ↔
        (search_content_plan_files_flow conn info sheet sn month
          oracle).error = none)
    ∧ (∀ (clientNames : List String) (server : TestStatus)
        (jsonRead : Nat → JsonReadResult) (bulkOracle : Nat → BulkOutcome)
        (vo : Bool) (mi : Nat),
      (bulk_create_jira_issues_per_client_flow clientNames server jsonRead
        bulkOracle vo mi).error = none ↔
        (vo = true ∨ server.status = "success")) :=
  ⟨fun conn info sheet sn =>
    ⟨read_error_iff conn info sheet sn, read_data_ne_nil conn info sheet sn⟩,
   search_error_iff, filter_error_iff, fetch_error_iff, transform_error_iff,
   submit_error_iff⟩

/-- Witness for `c6_stage_envelopes`: a concrete successful roster read
has a non-empty data list, and a concrete failed Jira connection check
surfaces as the submit stage's `error`. -/
theorem c6_stage_envelopes_witness :
    (read_content_plan_flow ⟨"success", none⟩ (Except.ok ⟨"T", ["Clients"]⟩)
      (Except.ok [[("Name", "A")]]) "Clients").data ≠ []
    ∧ ¬ (bulk_create_jira_issues_per_client_flow ["A"] ⟨"error", some "down"⟩
        (fun _ => ⟨"success", none, []⟩)
        (fun _ => ⟨"success", none, 0, 0⟩) false 45).error = none :=
  ⟨(c6_stage_envelopes.1 ⟨"success", none⟩ (Except.ok ⟨"T", ["Clients"]⟩)
      (Except.ok [[("Name", "A")]]) "Clients").2 (by decide),
   fun h => by
    have := (c6_stage_envelopes.2.2.2.2.2 ["A"] ⟨"error", some "down"⟩
      (fun _ => ⟨"success", none, []⟩)
      (fun _ => ⟨"success", none, 0, 0⟩) false 45).mp h
    simp at this⟩

end Noktah
